import Mathlib

/-! Shallow embedding of the Farm_optimization_project costing engine and
proofs about it.

Source files embedded:
- cameroon_agri_data.py: reference tables, get_total_input_cost,
  calculate_expected_revenue, calculate_profit (the yield-maximization
  pipeline used by YieldMaximizationCalculator.calculate_optimal_plan);
- cost_minimization.py: CostMinimizationCalculator.calculate_minimal_plan and
  optimize_within_budget;
- agricultural_optimization.py: AgriculturalOptimizationCalculator
  .calculate_optimized_plan, compare_all_strategies, sensitivity_analysis.

Modelling conventions:
- Python floats are modelled as exact rationals; every constant in the source
  is a decimal literal, so all arithmetic in the model is exact.
- Python dicts with a fixed key set are modelled as structures; the one dict
  whose key set depends on the crop (the cost breakdown built by
  get_total_input_cost) is modelled as an association list.
- d.get(k, v) is (t.lookup k).getD v; the test k in d is (t.lookup k).isSome.
- The advisory message lists (recommendations entries) and echo fields such as
  crop_type, land_size_acres and the crop-season metadata are presentation
  payload with no numeric content of their own and are not modelled; every
  numeric field of each result dictionary is kept.
- Fallible code returns Except: the Python division of an unguarded
  expression is pydiv, which yields ZeroDivisionError exactly when the
  divisor is zero. The per-hectare entries of the cost-min and balanced
  result dicts divide by the land size with no guard, so those fields are
  Except-valued, and the method-level wrappers run_minimal_plan and
  run_optimized_plan return the plan exactly when no entry of the result
  dict raises; the divisions behind an explicit positivity guard stay total
  because the guard prevents the zero-divisor case.
-/

namespace LAND_PREP_COSTS

def tillage_per_ha : ℚ := 65000

def harrowing_per_ha : ℚ := 32000

def irrigation_setup_per_ha : ℚ := 85000

end LAND_PREP_COSTS

def SEED_COSTS : List (String × ℚ) :=
  [("maize_improved", 2100), ("maize_local", 800), ("rice_improved", 1800),
   ("rice_local", 700), ("cassava_stems", 400), ("groundnut", 1200), ("beans", 1500)]

def SEED_REQUIREMENTS : List (String × ℚ) :=
  [("maize_improved", 25), ("maize_local", 30), ("rice_improved", 80),
   ("rice_local", 100), ("groundnut", 90), ("beans", 70)]

namespace FERTILIZER_COSTS

def npk_compound : ℚ := 32000

def urea : ℚ := 28000

def dap : ℚ := 35000

def organic_manure_ton : ℚ := 18000

end FERTILIZER_COSTS

/-- One inner dict of FERTILIZER_REQUIREMENTS: each key is optional, matching
the per-crop key sets of the source dict. -/
structure FertReq where
  npk_bags : Option ℚ := none
  urea_bags : Option ℚ := none
  dap_bags : Option ℚ := none
  organic_manure_tons : Option ℚ := none
deriving DecidableEq

def FERTILIZER_REQUIREMENTS : List (String × FertReq) :=
  [("maize", { npk_bags := some 4, urea_bags := some 3 }),
   ("rice", { npk_bags := some 5, urea_bags := some 4 }),
   ("cassava", { npk_bags := some 3, organic_manure_tons := some 2 }),
   ("groundnut", { npk_bags := some 2, organic_manure_tons := some 1 }),
   ("beans", { npk_bags := some 2, dap_bags := some 2 })]

namespace PESTICIDE_COSTS

def herbicide_per_ha : ℚ := 28000

def insecticide_per_ha : ℚ := 22000

def fungicide_per_ha : ℚ := 18000

end PESTICIDE_COSTS

namespace LABOR_COSTS

def daily_wage : ℚ := 1800

def planting_days_per_ha : ℚ := 8

def weeding_days_per_ha : ℚ := 12

def harvesting_days_per_ha : ℚ := 10

def other_operations_days_per_ha : ℚ := 6

end LABOR_COSTS

namespace IRRIGATION_COSTS

def water_cost_per_ha_season : ℚ := 45000

def pump_operation_per_ha : ℚ := 35000

end IRRIGATION_COSTS

namespace EQUIPMENT_COSTS

def tractor_ploughing_per_ha : ℚ := 65000

def tractor_harrowing_per_ha : ℚ := 32000

def mechanical_planting_per_ha : ℚ := 25000

def mechanical_harvesting_per_ha : ℚ := 55000

def fuel_operations_per_ha : ℚ := 28000

end EQUIPMENT_COSTS

namespace TRANSPORT_COSTS

def farm_to_market_per_ton : ℚ := 8500

def storage_per_ton_month : ℚ := 3500

end TRANSPORT_COSTS

namespace STORAGE_COSTS

def on_farm_storage_per_ton : ℚ := 2500

def improved_storage_per_ton : ℚ := 6000

end STORAGE_COSTS

def EXPECTED_YIELDS : List (String × ℚ) :=
  [("maize_with_inputs", 3.5), ("maize_basic", 1.8), ("rice_with_inputs", 4.2),
   ("rice_basic", 2.0), ("cassava_with_inputs", 18.0), ("cassava_basic", 12.0),
   ("groundnut_with_inputs", 2.5), ("groundnut_basic", 1.2),
   ("beans_with_inputs", 1.8), ("beans_basic", 0.9)]

def OPTIMAL_YIELDS : List (String × ℚ) :=
  [("maize", 4.5), ("rice", 5.5), ("cassava", 22.0), ("groundnut", 3.0), ("beans", 2.2)]

def MARKET_PRICES : List (String × ℚ) :=
  [("maize", 617), ("rice", 850), ("cassava_fresh", 180), ("cassava_processed", 450),
   ("groundnut", 1100), ("beans", 950)]

def FARMGATE_PRICES : List (String × ℚ) :=
  [("maize", 480), ("rice", 680), ("cassava_fresh", 150), ("cassava_processed", 380),
   ("groundnut", 900), ("beans", 780)]

def POST_HARVEST_LOSSES : List (String × ℚ) :=
  [("maize", 0.11), ("rice", 0.15), ("cassava", 0.30), ("groundnut", 0.12), ("beans", 0.10)]

/-- The entries the costs dict of get_total_input_cost holds just before the
source computes the total: the seeds and fertilizers entries are present
only under the same conditions as in the source. -/
def get_total_input_cost_items (crop_type : String) (hectares : ℚ) (use_optimal : Bool) :
    List (String × ℚ) :=
  [("land_preparation",
      (LAND_PREP_COSTS.tillage_per_ha + LAND_PREP_COSTS.harrowing_per_ha) * hectares)]
  ++ (if (SEED_REQUIREMENTS.lookup crop_type).isSome then
        let seed_key := crop_type ++ (if use_optimal then "_improved" else "_local")
        match SEED_COSTS.lookup seed_key with
        | some seed_cost =>
            [("seeds",
                seed_cost
                  * ((SEED_REQUIREMENTS.lookup seed_key).getD
                      ((SEED_REQUIREMENTS.lookup crop_type).getD 0))
                  * hectares)]
        | none => []
      else [])
  ++ (match FERTILIZER_REQUIREMENTS.lookup crop_type with
      | some fert_req =>
          [("fertilizers",
              ((match fert_req.npk_bags with
                | some n => n * FERTILIZER_COSTS.npk_compound
                | none => 0)
               + (match fert_req.urea_bags with
                  | some n => n * FERTILIZER_COSTS.urea
                  | none => 0)
               + (match fert_req.dap_bags with
                  | some n => n * FERTILIZER_COSTS.dap
                  | none => 0)
               + (match fert_req.organic_manure_tons with
                  | some n => n * FERTILIZER_COSTS.organic_manure_ton
                  | none => 0))
              * hectares)]
      | none => [])
  ++ [("pesticides",
        (PESTICIDE_COSTS.herbicide_per_ha + PESTICIDE_COSTS.insecticide_per_ha) * hectares
          + (if use_optimal then PESTICIDE_COSTS.fungicide_per_ha * hectares else 0)),
      ("labor",
        (LABOR_COSTS.planting_days_per_ha + LABOR_COSTS.weeding_days_per_ha
            + LABOR_COSTS.harvesting_days_per_ha + LABOR_COSTS.other_operations_days_per_ha)
          * LABOR_COSTS.daily_wage * hectares),
      ("equipment",
        (EQUIPMENT_COSTS.tractor_ploughing_per_ha + EQUIPMENT_COSTS.tractor_harrowing_per_ha
            + EQUIPMENT_COSTS.fuel_operations_per_ha) * hectares
          + (if use_optimal then
               EQUIPMENT_COSTS.mechanical_harvesting_per_ha * hectares
             else 0))]

/-- get_total_input_cost of cameroon_agri_data.py: the item entries followed
by the total entry the source appends with costs of total_cost set to
sum of costs.values(). -/
def get_total_input_cost (crop_type : String) (hectares : ℚ) (use_optimal : Bool) :
    List (String × ℚ) :=
  let items := get_total_input_cost_items crop_type hectares use_optimal
  items ++ [("total_cost", (items.map Prod.snd).sum)]

/-- Reading the total_cost entry of a cost-breakdown dict. -/
def breakdown_total (costs : List (String × ℚ)) : ℚ :=
  (costs.lookup "total_cost").getD 0

structure Revenue where
  yield_per_ha_tons : ℚ
  total_production_tons : ℚ
  marketable_production_tons : ℚ
  post_harvest_loss_tons : ℚ
  price_per_kg : ℚ
  gross_revenue : ℚ
  transportation_cost : ℚ
  net_revenue : ℚ

/-- calculate_expected_revenue of cameroon_agri_data.py. Every lookup uses
the same fallback defaults as the source; no code path fails. -/
def calculate_expected_revenue (crop_type : String) (hectares : ℚ) (use_optimal : Bool) :
    Revenue :=
  let yield_per_ha :=
    if use_optimal && (OPTIMAL_YIELDS.lookup crop_type).isSome then
      (OPTIMAL_YIELDS.lookup crop_type).getD 0
    else
      (EXPECTED_YIELDS.lookup
          (crop_type ++ (if use_optimal then "_with_inputs" else "_basic"))).getD 0
  let total_production := yield_per_ha * hectares
  let loss_rate := (POST_HARVEST_LOSSES.lookup crop_type).getD 0.10
  let marketable_production := total_production * (1 - loss_rate)
  let price_per_kg :=
    (FARMGATE_PRICES.lookup crop_type).getD ((MARKET_PRICES.lookup crop_type).getD 0)
  let gross_revenue := marketable_production * 1000 * price_per_kg
  let transport_cost := marketable_production * TRANSPORT_COSTS.farm_to_market_per_ton
  let net_revenue := gross_revenue - transport_cost
  { yield_per_ha_tons := yield_per_ha
    total_production_tons := total_production
    marketable_production_tons := marketable_production
    post_harvest_loss_tons := total_production - marketable_production
    price_per_kg := price_per_kg
    gross_revenue := gross_revenue
    transportation_cost := transport_cost
    net_revenue := net_revenue }

structure ProfitAnalysis where
  net_profit : ℚ
  roi_percentage : ℚ
  break_even_price : ℚ

/-- calculate_profit of cameroon_agri_data.py, with its division guards on
total cost and marketable production. -/
def calculate_profit (crop_type : String) (hectares : ℚ) (use_optimal : Bool) :
    ProfitAnalysis :=
  let costs_total := breakdown_total (get_total_input_cost crop_type hectares use_optimal)
  let revenue := calculate_expected_revenue crop_type hectares use_optimal
  let net_profit := revenue.net_revenue - costs_total
  { net_profit := net_profit
    roi_percentage := if 0 < costs_total then net_profit / costs_total * 100 else 0
    break_even_price :=
      if 0 < revenue.marketable_production_tons then
        costs_total / (revenue.marketable_production_tons * 1000)
      else 0 }

/-- The one Python exception the core modules can raise: dividing by a zero
float raises ZeroDivisionError. -/
inductive PyError where
  | zeroDivision : PyError
deriving DecidableEq

/-- Python float division as used without a guard in the source: raises
ZeroDivisionError when the divisor is zero, otherwise returns the exact
quotient. -/
def pydiv (num den : ℚ) : Except PyError ℚ :=
  if den = 0 then Except.error PyError.zeroDivision else Except.ok (num / den)

/-- The costs dict of calculate_minimal_plan and calculate_optimized_plan:
in those two methods all nine line-item keys and the total are always
present, so a structure is a faithful model. -/
structure CostBreakdown where
  land_preparation : ℚ
  seeds : ℚ
  fertilizers : ℚ
  pesticides : ℚ
  labor : ℚ
  equipment : ℚ
  irrigation : ℚ
  transportation : ℚ
  storage : ℚ
  total_cost : ℚ

/-- Sum of the nine line items of a breakdown, total excluded. -/
def CostBreakdown.line_items_sum (c : CostBreakdown) : ℚ :=
  c.land_preparation + c.seeds + c.fertilizers + c.pesticides + c.labor
    + c.equipment + c.irrigation + c.transportation + c.storage

structure MinimalPlan where
  cost_breakdown : CostBreakdown
  cost_per_hectare : Except PyError ℚ
  expected_yield_per_ha_tons : ℚ
  total_production_tons : ℚ
  marketable_production_tons : ℚ
  post_harvest_loss_percentage : ℚ
  farmgate_price_per_kg : ℚ
  gross_revenue : ℚ
  transportation_cost : ℚ
  net_revenue : ℚ
  net_profit : ℚ
  roi_percentage : ℚ
  break_even_price_per_kg : ℚ

/-- CostMinimizationCalculator.calculate_minimal_plan of cost_minimization.py.
The preliminary total is the sum of the nine items (transportation, storage
and irrigation still zero); the transport and storage costs computed from the
yield model are then added to the total exactly as the two += updates of the
source do. -/
def calculate_minimal_plan (crop_type : String) (land_size : ℚ) : MinimalPlan :=
  let land_preparation := LAND_PREP_COSTS.tillage_per_ha * 0.6 * land_size
  let seed_key :=
    if (SEED_COSTS.lookup (crop_type ++ "_local")).isSome then crop_type ++ "_local"
    else crop_type
  let seed_cost_per_kg :=
    (SEED_COSTS.lookup seed_key).getD
      ((SEED_COSTS.lookup (crop_type ++ "_improved")).getD 1000)
  let seed_qty :=
    (SEED_REQUIREMENTS.lookup seed_key).getD ((SEED_REQUIREMENTS.lookup crop_type).getD 25)
  let seeds := seed_cost_per_kg * seed_qty * land_size
  let fertilizers :=
    match FERTILIZER_REQUIREMENTS.lookup crop_type with
    | some fert_req =>
        ((match fert_req.npk_bags with
          | some n => n * 0.5 * FERTILIZER_COSTS.npk_compound
          | none => 0)
         + (match fert_req.organic_manure_tons with
            | some n => n * FERTILIZER_COSTS.organic_manure_ton
            | none => 1 * FERTILIZER_COSTS.organic_manure_ton))
        * land_size
    | none => FERTILIZER_COSTS.organic_manure_ton * land_size
  let pesticides := PESTICIDE_COSTS.herbicide_per_ha * 0.7 * land_size
  let total_labor_days :=
    LABOR_COSTS.planting_days_per_ha + LABOR_COSTS.weeding_days_per_ha
      + LABOR_COSTS.harvesting_days_per_ha + LABOR_COSTS.other_operations_days_per_ha
  let labor := total_labor_days * 0.5 * LABOR_COSTS.daily_wage * land_size
  let equipment := EQUIPMENT_COSTS.tractor_ploughing_per_ha * 0.4 * land_size
  let preliminary_total :=
    land_preparation + seeds + fertilizers + pesticides + labor + equipment + 0 + 0 + 0
  let yield_per_ha :=
    if (EXPECTED_YIELDS.lookup (crop_type ++ "_basic")).isSome then
      (EXPECTED_YIELDS.lookup (crop_type ++ "_basic")).getD 0
    else ((OPTIMAL_YIELDS.lookup crop_type).getD 2.0) * 0.55
  let total_production := yield_per_ha * land_size
  let loss_rate := (POST_HARVEST_LOSSES.lookup crop_type).getD 0.10
  let marketable_production := total_production * (1 - loss_rate)
  let transport_cost :=
    marketable_production * TRANSPORT_COSTS.farm_to_market_per_ton * 0.7
  let storage_cost := marketable_production * STORAGE_COSTS.on_farm_storage_per_ton
  let total_cost := preliminary_total + transport_cost + storage_cost
  let price_per_kg := (FARMGATE_PRICES.lookup crop_type).getD 500
  let gross_revenue := marketable_production * 1000 * price_per_kg
  let net_revenue := gross_revenue - transport_cost
  let net_profit := net_revenue - total_cost
  { cost_breakdown :=
      { land_preparation := land_preparation
        seeds := seeds
        fertilizers := fertilizers
        pesticides := pesticides
        labor := labor
        equipment := equipment
        irrigation := 0
        transportation := transport_cost
        storage := storage_cost
        total_cost := total_cost }
    cost_per_hectare := pydiv total_cost land_size
    expected_yield_per_ha_tons := yield_per_ha
    total_production_tons := total_production
    marketable_production_tons := marketable_production
    post_harvest_loss_percentage := loss_rate * 100
    farmgate_price_per_kg := price_per_kg
    gross_revenue := gross_revenue
    transportation_cost := transport_cost
    net_revenue := net_revenue
    net_profit := net_profit
    roi_percentage := if 0 < total_cost then net_profit / total_cost * 100 else 0
    break_even_price_per_kg :=
      if 0 < marketable_production then total_cost / (marketable_production * 1000) else 0 }

/-- Running CostMinimizationCalculator.calculate_minimal_plan as a method
call: the cost_per_hectare entry divides by the land size with no guard, so
the call raises exactly when that division does, and otherwise returns the
result dict. -/
def run_minimal_plan (crop_type : String) (land_size : ℚ) : Except PyError MinimalPlan :=
  let plan := calculate_minimal_plan crop_type land_size
  match plan.cost_per_hectare with
  | Except.error e => Except.error e
  | Except.ok _ => Except.ok plan

structure OptimizedPlan where
  input_level_percentage : ℚ
  cost_breakdown : CostBreakdown
  cost_per_hectare : Except PyError ℚ
  expected_yield_per_ha_tons : ℚ
  total_production_tons : ℚ
  marketable_production_tons : ℚ
  post_harvest_loss_percentage : ℚ
  farmgate_price_per_kg : ℚ
  gross_revenue : ℚ
  transportation_cost : ℚ
  net_revenue : ℚ
  net_profit : ℚ
  roi_percentage : ℚ
  break_even_price_per_kg : ℚ
  profit_per_hectare : Except PyError ℚ
  cost_per_kg_produced : ℚ
  profit_per_kg_produced : ℚ
  production_efficiency : ℚ

/-- AgriculturalOptimizationCalculator.calculate_optimized_plan of
agricultural_optimization.py, with the calculator fields crop_type,
land_size and input_level passed explicitly. The constructor sets
input_level to 0.85, 0.65 or 0.75 according to the priority argument;
sensitivity_analysis overwrites it with other values. -/
def calculate_optimized_plan (crop_type : String) (land_size input_level : ℚ) :
    OptimizedPlan :=
  let input_factor := input_level
  let land_preparation :=
    (LAND_PREP_COSTS.tillage_per_ha * 0.85 + LAND_PREP_COSTS.harrowing_per_ha * 0.7)
      * land_size
  let seed_key :=
    if (SEED_COSTS.lookup (crop_type ++ "_improved")).isSome then crop_type ++ "_improved"
    else crop_type
  let seed_cost_per_kg :=
    (SEED_COSTS.lookup seed_key).getD
      ((SEED_COSTS.lookup (crop_type ++ "_local")).getD 1000)
  let seed_qty :=
    (SEED_REQUIREMENTS.lookup seed_key).getD ((SEED_REQUIREMENTS.lookup crop_type).getD 25)
  let seeds := seed_cost_per_kg * seed_qty * input_factor * land_size
  let fertilizers :=
    match FERTILIZER_REQUIREMENTS.lookup crop_type with
    | some fert_req =>
        ((match fert_req.npk_bags with
          | some n => n * input_factor * FERTILIZER_COSTS.npk_compound
          | none => 0)
         + (match fert_req.urea_bags with
            | some n => n * input_factor * FERTILIZER_COSTS.urea
            | none => 0)
         + (match fert_req.dap_bags with
            | some n => n * input_factor * FERTILIZER_COSTS.dap
            | none => 0)
         + (fert_req.organic_manure_tons.getD 1.5) * FERTILIZER_COSTS.organic_manure_ton)
        * land_size
    | none => 1.5 * FERTILIZER_COSTS.organic_manure_ton * land_size
  let pesticides :=
    (PESTICIDE_COSTS.herbicide_per_ha * 0.9 + PESTICIDE_COSTS.insecticide_per_ha * 0.8)
      * land_size
  let total_labor_days :=
    LABOR_COSTS.planting_days_per_ha + LABOR_COSTS.weeding_days_per_ha
      + LABOR_COSTS.harvesting_days_per_ha + LABOR_COSTS.other_operations_days_per_ha
  let labor := total_labor_days * 0.7 * LABOR_COSTS.daily_wage * land_size
  let equipment :=
    (EQUIPMENT_COSTS.tractor_ploughing_per_ha * 0.85
        + EQUIPMENT_COSTS.tractor_harrowing_per_ha * 0.5
        + EQUIPMENT_COSTS.fuel_operations_per_ha * 0.7)
      * land_size
  let irrigation :=
    (if 0.7 < input_factor then IRRIGATION_COSTS.pump_operation_per_ha * 0.3 else 0)
      * land_size
  let preliminary_total :=
    land_preparation + seeds + fertilizers + pesticides + labor + equipment
      + irrigation + 0 + 0
  let yield_per_ha :=
    if (OPTIMAL_YIELDS.lookup crop_type).isSome then
      ((OPTIMAL_YIELDS.lookup crop_type).getD 0) * (0.60 + input_factor * 0.45)
    else (EXPECTED_YIELDS.lookup (crop_type ++ "_with_inputs")).getD 2.5
  let total_production := yield_per_ha * land_size
  let base_loss_rate := (POST_HARVEST_LOSSES.lookup crop_type).getD 0.10
  let loss_rate := base_loss_rate * 0.7
  let marketable_production := total_production * (1 - loss_rate)
  let transport_cost :=
    marketable_production * TRANSPORT_COSTS.farm_to_market_per_ton * 0.85
  let storage_cost :=
    marketable_production * STORAGE_COSTS.improved_storage_per_ton * 0.5
  let total_cost := preliminary_total + transport_cost + storage_cost
  let price_per_kg := (FARMGATE_PRICES.lookup crop_type).getD 500
  let gross_revenue := marketable_production * 1000 * price_per_kg
  let net_revenue := gross_revenue - transport_cost
  let net_profit := net_revenue - total_cost
  { input_level_percentage := input_factor * 100
    cost_breakdown :=
      { land_preparation := land_preparation
        seeds := seeds
        fertilizers := fertilizers
        pesticides := pesticides
        labor := labor
        equipment := equipment
        irrigation := irrigation
        transportation := transport_cost
        storage := storage_cost
        total_cost := total_cost }
    cost_per_hectare := pydiv total_cost land_size
    expected_yield_per_ha_tons := yield_per_ha
    total_production_tons := total_production
    marketable_production_tons := marketable_production
    post_harvest_loss_percentage := loss_rate * 100
    farmgate_price_per_kg := price_per_kg
    gross_revenue := gross_revenue
    transportation_cost := transport_cost
    net_revenue := net_revenue
    net_profit := net_profit
    roi_percentage := if 0 < total_cost then net_profit / total_cost * 100 else 0
    break_even_price_per_kg :=
      if 0 < marketable_production then total_cost / (marketable_production * 1000) else 0
    profit_per_hectare := pydiv net_profit land_size
    cost_per_kg_produced :=
      if 0 < marketable_production then total_cost / (marketable_production * 1000) else 0
    profit_per_kg_produced :=
      if 0 < marketable_production then net_profit / (marketable_production * 1000) else 0
    -- The inner divisions by land_size sit behind the 0 < total_cost guard of
    -- the source; total_cost is land_size times a crop factor, so it is 0
    -- whenever land_size is 0 and the guarded branch never divides by zero.
    production_efficiency :=
      if 0 < total_cost then
        (marketable_production / land_size) / (total_cost / land_size)
      else 0 }

/-- Running AgriculturalOptimizationCalculator.calculate_optimized_plan as a
method call: the local profit_per_hectare divides net profit by the land size
with no guard before the result dict is built, and the cost_per_hectare entry
of the dict then divides total cost by the land size, so the call raises
exactly when one of those divisions does, and otherwise returns the result
dict. -/
def run_optimized_plan (crop_type : String) (land_size input_level : ℚ) :
    Except PyError OptimizedPlan :=
  let plan := calculate_optimized_plan crop_type land_size input_level
  match plan.profit_per_hectare with
  | Except.error e => Except.error e
  | Except.ok _ =>
    match plan.cost_per_hectare with
    | Except.error e => Except.error e
    | Except.ok _ => Except.ok plan

/-- One row of the comparison dict built by compare_all_strategies: the
numeric fields plus the strategy label string used in the recommendations. -/
structure StrategySummary where
  strategy : String
  total_cost : ℚ
  production_tons : ℚ
  revenue : ℚ
  profit : ℚ
  roi : ℚ
  cost_per_kg : ℚ
  profit_per_ha : Except PyError ℚ

structure StrategyRecommendations where
  highest_roi : String
  highest_profit : String
  most_efficient : String

structure StrategyComparison where
  cost_minimization : StrategySummary
  agricultural_optimization : StrategySummary
  yield_maximization : StrategySummary
  recommendations : StrategyRecommendations

/-- The Python builtin max(iterable, key=f): fold keeping the current best and
replacing it only when the new key is strictly greater, so on ties the
earliest element wins. -/
def pyMaxBy {α : Type} (f : α → ℚ) (x : α) (l : List α) : α :=
  l.foldl (fun best a => if f best < f a then a else best) x

/-- The Python builtin min(iterable, key=f): the earliest element with the
least key wins. -/
def pyMinBy {α : Type} (f : α → ℚ) (x : α) (l : List α) : α :=
  l.foldl (fun best a => if f a < f best then a else best) x

/-- The recommendations block of compare_all_strategies: max and min over the
dict values in insertion order cost_minimization, agricultural_optimization,
yield_maximization. -/
def strategy_recommendations (cm ao ym : StrategySummary) : StrategyRecommendations :=
  { highest_roi := (pyMaxBy (fun s => s.roi) cm [ao, ym]).strategy
    highest_profit := (pyMaxBy (fun s => s.profit) cm [ao, ym]).strategy
    most_efficient := (pyMinBy (fun s => s.cost_per_kg) cm [ao, ym]).strategy }

/-- AgriculturalOptimizationCalculator.compare_all_strategies of
agricultural_optimization.py. The yield-maximization row is built from
YieldMaximizationCalculator.calculate_optimal_plan, whose numbers come from
get_total_input_cost, calculate_expected_revenue and calculate_profit. -/
def compare_all_strategies (crop_type : String) (land_size input_level : ℚ) :
    StrategyComparison :=
  let optimized := calculate_optimized_plan crop_type land_size input_level
  let yield_costs_total := breakdown_total (get_total_input_cost crop_type land_size true)
  let yield_revenue := calculate_expected_revenue crop_type land_size true
  let yield_profit := calculate_profit crop_type land_size true
  let cost_min := calculate_minimal_plan crop_type land_size
  let cm : StrategySummary :=
    { strategy := "Cost Minimization (Lowest investment)"
      total_cost := cost_min.cost_breakdown.total_cost
      production_tons := cost_min.marketable_production_tons
      revenue := cost_min.net_revenue
      profit := cost_min.net_profit
      roi := cost_min.roi_percentage
      cost_per_kg :=
        if 0 < cost_min.marketable_production_tons then
          cost_min.cost_breakdown.total_cost / (cost_min.marketable_production_tons * 1000)
        else 0
      profit_per_ha := pydiv cost_min.net_profit land_size }
  let ao : StrategySummary :=
    { strategy := "Agricultural Optimization (Balanced approach)"
      total_cost := optimized.cost_breakdown.total_cost
      production_tons := optimized.marketable_production_tons
      revenue := optimized.net_revenue
      profit := optimized.net_profit
      roi := optimized.roi_percentage
      cost_per_kg := optimized.cost_per_kg_produced
      profit_per_ha := optimized.profit_per_hectare }
  let ym : StrategySummary :=
    { strategy := "Yield Maximization (Maximum production)"
      total_cost := yield_costs_total
      production_tons := yield_revenue.marketable_production_tons
      revenue := yield_revenue.net_revenue
      profit := yield_profit.net_profit
      roi := yield_profit.roi_percentage
      cost_per_kg :=
        if 0 < yield_revenue.marketable_production_tons then
          yield_costs_total / (yield_revenue.marketable_production_tons * 1000)
        else 0
      profit_per_ha := pydiv yield_profit.net_profit land_size }
  { cost_minimization := cm
    agricultural_optimization := ao
    yield_maximization := ym
    recommendations := strategy_recommendations cm ao ym }

/-- The mutable fields of an AgriculturalOptimizationCalculator instance that
sensitivity_analysis reads and writes. -/
structure OptCalc where
  crop_type : String
  land_size : ℚ
  input_level : ℚ
deriving DecidableEq

structure Scenario where
  input_level_pct : ℚ
  total_cost : ℚ
  production_tons : ℚ
  net_profit : ℚ
  roi : ℚ
  profit_per_ha : Except PyError ℚ

structure SweepResult where
  scenarios : List Scenario
  recommended_input_level : ℚ
  optimal_profit : ℚ
  optimal_roi : ℚ

/-- The scenario row recorded by each iteration of the sweep. -/
def scenario_of (input_level_pct : ℚ) (result : OptimizedPlan) : Scenario :=
  { input_level_pct := input_level_pct
    total_cost := result.cost_breakdown.total_cost
    production_tons := result.marketable_production_tons
    net_profit := result.net_profit
    roi := result.roi_percentage
    profit_per_ha := result.profit_per_hectare }

/-- The sequence of input percentages swept by sensitivity_analysis. -/
def sweep_levels : List ℚ := [50, 60, 70, 75, 80, 85, 90, 95, 100]

/-- The calculator state the body of the sweep loop computes with: the shared
input_level field of self overwritten with the swept percentage (the
self.input_level = input_pct / 100 assignment of the source). -/
def sweep_overwritten_calc (s : OptCalc) (input_pct : ℚ) : OptCalc :=
  { s with input_level := input_pct / 100 }

/-- One iteration of the sweep loop of sensitivity_analysis: save the original
input_level, overwrite the shared field, run calculate_optimized_plan from
that mutated state, record the scenario, restore the saved value. The first
component is the calculator state after the iteration. -/
def sensitivity_step (s : OptCalc) (input_pct : ℚ) : OptCalc × Scenario :=
  let original := s.input_level
  let mutated := sweep_overwritten_calc s input_pct
  let result :=
    calculate_optimized_plan mutated.crop_type mutated.land_size mutated.input_level
  ({ mutated with input_level := original }, scenario_of input_pct result)

/-- The for-loop of sensitivity_analysis: thread the calculator state through
the iterations, appending each recorded scenario. -/
def sensitivity_sweep (s : OptCalc) : OptCalc × List Scenario :=
  sweep_levels.foldl
    (fun acc input_pct =>
      let step := sensitivity_step acc.1 input_pct
      (step.1, acc.2 ++ [step.2]))
    (s, [])

/-- AgriculturalOptimizationCalculator.sensitivity_analysis: run the sweep,
then pick the scenario of maximum roi with the Python max builtin. The empty
branch is unreachable because sweep_levels is a fixed non-empty list (on an
empty sequence the Python max call would raise). -/
def sensitivity_analysis (s : OptCalc) : OptCalc × SweepResult :=
  let swept := sensitivity_sweep s
  match swept.2 with
  | [] =>
      (swept.1,
       { scenarios := [], recommended_input_level := 0, optimal_profit := 0,
         optimal_roi := 0 })
  | x :: xs =>
      let best := pyMaxBy (fun sc => sc.roi) x xs
      (swept.1,
       { scenarios := x :: xs
         recommended_input_level := best.input_level_pct
         optimal_profit := best.net_profit
         optimal_roi := best.roi })

/-- The scenario the sweep records for a given percentage, as a function of
the original calculator state. -/
def scenario_at (s : OptCalc) (input_pct : ℚ) : Scenario :=
  scenario_of input_pct
    (calculate_optimized_plan s.crop_type s.land_size (input_pct / 100))

/-- The scenarios of the eight sweep levels after the first, spelt out; used
to name the list the sweep fold produces. -/
def sweep_rest (s : OptCalc) : List Scenario :=
  [scenario_at s 60, scenario_at s 70, scenario_at s 75, scenario_at s 80,
   scenario_at s 85, scenario_at s 90, scenario_at s 95, scenario_at s 100]

/-- The numeric payload of the infeasible-budget dict returned by
optimize_within_budget: besides the feasibility flag, the message string
interpolates the budget and the requested land size and the recommendation
string interpolates the affordable land size; the alternative entry is fixed
text with no numbers. -/
structure BudgetInfeasible where
  feasible : Bool
  message_budget : ℚ
  message_land_size : ℚ
  recommendation_land_size : ℚ
deriving DecidableEq

/-- The numeric payload of the feasible-budget dict returned by
optimize_within_budget. The suggestions strings are advisory text. -/
structure BudgetFeasible where
  feasible : Bool
  budget_used : ℚ
  budget_remaining : ℚ
  remaining_percentage : ℚ
deriving DecidableEq

inductive BudgetAnalysis where
  | noBudget : BudgetAnalysis
  | infeasible : BudgetInfeasible → BudgetAnalysis
  | feasible : BudgetFeasible → BudgetAnalysis
deriving DecidableEq

/-- Every number carried anywhere in the infeasible result variant. -/
def BudgetInfeasible.carried_numbers (b : BudgetInfeasible) : List ℚ :=
  [b.message_budget, b.message_land_size, b.recommendation_land_size]

/-- CostMinimizationCalculator.optimize_within_budget of cost_minimization.py.
The Python guard if not self.budget is also true for a zero budget, hence the
b = 0 test. The infeasible branch is taken when total_cost > budget. -/
def optimize_within_budget (crop_type : String) (land_size : ℚ) (budget : Option ℚ) :
    BudgetAnalysis :=
  match budget with
  | none => BudgetAnalysis.noBudget
  | some b =>
      if b = 0 then BudgetAnalysis.noBudget
      else
        let minimal := calculate_minimal_plan crop_type land_size
        let total_cost := minimal.cost_breakdown.total_cost
        if b < total_cost then
          BudgetAnalysis.infeasible
            { feasible := false
              message_budget := b
              message_land_size := land_size
              recommendation_land_size := b / total_cost * land_size }
        else
          BudgetAnalysis.feasible
            { feasible := true
              budget_used := total_cost
              budget_remaining := b - total_cost
              remaining_percentage := (b - total_cost) / b * 100 }

theorem pyMaxBy_mem {α : Type} (f : α → ℚ) (x : α) (l : List α) :
    pyMaxBy f x l ∈ x :: l := by
  induction l generalizing x with
  | nil => simp [pyMaxBy]
  | cons a l ih =>
    have h := ih (if f x < f a then a else x)
    rw [List.mem_cons] at h
    show pyMaxBy f (if f x < f a then a else x) l ∈ x :: a :: l
    rcases h with h | h
    · rw [h]
      split <;> simp
    · simp [h]

theorem pyMaxBy_le {α : Type} (f : α → ℚ) (x : α) (l : List α) :
    ∀ a ∈ x :: l, f a ≤ f (pyMaxBy f x l) := by
  induction l generalizing x with
  | nil =>
    intro a ha
    rw [List.mem_singleton] at ha
    subst ha
    exact le_refl _
  | cons a l ih =>
    intro b hb
    show f b ≤ f (pyMaxBy f (if f x < f a then a else x) l)
    have hyx : f x ≤ f (if f x < f a then a else x) := by
      split
      · exact le_of_lt (by assumption)
      · exact le_refl _
    have hya : f a ≤ f (if f x < f a then a else x) := by
      split
      · exact le_refl _
      · exact le_of_not_lt (by assumption)
    have hhead :
        f (if f x < f a then a else x) ≤ f (pyMaxBy f (if f x < f a then a else x) l) :=
      ih (if f x < f a then a else x) _ (List.mem_cons_self _ _)
    rcases List.mem_cons.1 hb with rfl | hb
    · exact le_trans hyx hhead
    rcases List.mem_cons.1 hb with rfl | hb
    · exact le_trans hya hhead
    · exact ih (if f x < f a then a else x) b (List.mem_cons_of_mem _ hb)

theorem pyMinBy_mem {α : Type} (f : α → ℚ) (x : α) (l : List α) :
    pyMinBy f x l ∈ x :: l := by
  induction l generalizing x with
  | nil => simp [pyMinBy]
  | cons a l ih =>
    have h := ih (if f a < f x then a else x)
    rw [List.mem_cons] at h
    show pyMinBy f (if f a < f x then a else x) l ∈ x :: a :: l
    rcases h with h | h
    · rw [h]
      split <;> simp
    · simp [h]

theorem pyMinBy_le {α : Type} (f : α → ℚ) (x : α) (l : List α) :
    ∀ a ∈ x :: l, f (pyMinBy f x l) ≤ f a := by
  induction l generalizing x with
  | nil =>
    intro a ha
    rw [List.mem_singleton] at ha
    subst ha
    exact le_refl _
  | cons a l ih =>
    intro b hb
    show f (pyMinBy f (if f a < f x then a else x) l) ≤ f b
    have hyx : f (if f a < f x then a else x) ≤ f x := by
      split
      · exact le_of_lt (by assumption)
      · exact le_refl _
    have hya : f (if f a < f x then a else x) ≤ f a := by
      split
      · exact le_refl _
      · exact le_of_not_lt (by assumption)
    have hhead :
        f (pyMinBy f (if f a < f x then a else x) l) ≤ f (if f a < f x then a else x) :=
      ih (if f a < f x then a else x) _ (List.mem_cons_self _ _)
    rcases List.mem_cons.1 hb with rfl | hb
    · exact le_trans hhead hyx
    rcases List.mem_cons.1 hb with rfl | hb
    · exact le_trans hhead hya
    · exact ih (if f a < f x then a else x) b (List.mem_cons_of_mem _ hb)

theorem pyMaxBy_three_of_first {α : Type} {f : α → ℚ} {e1 e2 e3 : α}
    (h2 : f e2 ≤ f e1) (h3 : f e3 ≤ f e1) :
    pyMaxBy f e1 [e2, e3] = e1 := by
  show (if f (if f e1 < f e2 then e2 else e1) < f e3 then e3
        else if f e1 < f e2 then e2 else e1) = e1
  rw [if_neg (not_lt.2 h2), if_neg (not_lt.2 h3)]

theorem pyMaxBy_three_of_second {α : Type} {f : α → ℚ} {e1 e2 e3 : α}
    (h1 : f e1 < f e2) (h3 : f e3 ≤ f e2) :
    pyMaxBy f e1 [e2, e3] = e2 := by
  show (if f (if f e1 < f e2 then e2 else e1) < f e3 then e3
        else if f e1 < f e2 then e2 else e1) = e2
  rw [if_pos h1, if_neg (not_lt.2 h3)]

theorem pyMaxBy_three_of_third {α : Type} {f : α → ℚ} {e1 e2 e3 : α}
    (h1 : f e1 < f e3) (h2 : f e2 < f e3) :
    pyMaxBy f e1 [e2, e3] = e3 := by
  show (if f (if f e1 < f e2 then e2 else e1) < f e3 then e3
        else if f e1 < f e2 then e2 else e1) = e3
  by_cases h12 : f e1 < f e2
  · rw [if_pos h12, if_pos h2]
  · rw [if_neg h12, if_pos h1]

/-- Python max over three elements returns the first element whose key equals
the maximum of the three keys. -/
theorem pyMaxBy_three {α : Type} (f : α → ℚ) (e1 e2 e3 : α) :
    pyMaxBy f e1 [e2, e3] =
      (if f e1 = max (f e1) (max (f e2) (f e3)) then e1
       else if f e2 = max (f e1) (max (f e2) (f e3)) then e2
       else e3) := by
  have hub1 : f e1 ≤ max (f e1) (max (f e2) (f e3)) := le_max_left _ _
  have hub2 : f e2 ≤ max (f e1) (max (f e2) (f e3)) :=
    le_trans (le_max_left _ _) (le_max_right _ _)
  have hub3 : f e3 ≤ max (f e1) (max (f e2) (f e3)) :=
    le_trans (le_max_right _ _) (le_max_right _ _)
  by_cases h1 : f e1 = max (f e1) (max (f e2) (f e3))
  · rw [if_pos h1]
    exact pyMaxBy_three_of_first (h1 ▸ hub2) (h1 ▸ hub3)
  · rw [if_neg h1]
    have h1lt : f e1 < max (f e1) (max (f e2) (f e3)) := lt_of_le_of_ne hub1 h1
    by_cases h2 : f e2 = max (f e1) (max (f e2) (f e3))
    · rw [if_pos h2]
      exact pyMaxBy_three_of_second (h2 ▸ h1lt) (h2 ▸ hub3)
    · have h2lt : f e2 < max (f e1) (max (f e2) (f e3)) := lt_of_le_of_ne hub2 h2
      have h3 : f e3 = max (f e1) (max (f e2) (f e3)) := by
        rcases max_choice (f e1) (max (f e2) (f e3)) with h | h
        · exact absurd h.symm h1
        · rcases max_choice (f e2) (f e3) with h' | h'
          · exact absurd (h.trans h').symm h2
          · exact (h.trans h').symm
      rw [if_neg h2]
      exact pyMaxBy_three_of_third (h3 ▸ h1lt) (h3 ▸ h2lt)

theorem pyMinBy_three_of_first {α : Type} {f : α → ℚ} {e1 e2 e3 : α}
    (h2 : f e1 ≤ f e2) (h3 : f e1 ≤ f e3) :
    pyMinBy f e1 [e2, e3] = e1 := by
  show (if f e3 < f (if f e2 < f e1 then e2 else e1) then e3
        else if f e2 < f e1 then e2 else e1) = e1
  rw [if_neg (not_lt.2 h2), if_neg (not_lt.2 h3)]

theorem pyMinBy_three_of_second {α : Type} {f : α → ℚ} {e1 e2 e3 : α}
    (h1 : f e2 < f e1) (h3 : f e2 ≤ f e3) :
    pyMinBy f e1 [e2, e3] = e2 := by
  show (if f e3 < f (if f e2 < f e1 then e2 else e1) then e3
        else if f e2 < f e1 then e2 else e1) = e2
  rw [if_pos h1, if_neg (not_lt.2 h3)]

theorem pyMinBy_three_of_third {α : Type} {f : α → ℚ} {e1 e2 e3 : α}
    (h1 : f e3 < f e1) (h2 : f e3 < f e2) :
    pyMinBy f e1 [e2, e3] = e3 := by
  show (if f e3 < f (if f e2 < f e1 then e2 else e1) then e3
        else if f e2 < f e1 then e2 else e1) = e3
  by_cases h12 : f e2 < f e1
  · rw [if_pos h12, if_pos h2]
  · rw [if_neg h12, if_pos h1]

/-- Python min over three elements returns the first element whose key equals
the minimum of the three keys. -/
theorem pyMinBy_three {α : Type} (f : α → ℚ) (e1 e2 e3 : α) :
    pyMinBy f e1 [e2, e3] =
      (if f e1 = min (f e1) (min (f e2) (f e3)) then e1
       else if f e2 = min (f e1) (min (f e2) (f e3)) then e2
       else e3) := by
  have hlb1 : min (f e1) (min (f e2) (f e3)) ≤ f e1 := min_le_left _ _
  have hlb2 : min (f e1) (min (f e2) (f e3)) ≤ f e2 :=
    le_trans (min_le_right _ _) (min_le_left _ _)
  have hlb3 : min (f e1) (min (f e2) (f e3)) ≤ f e3 :=
    le_trans (min_le_right _ _) (min_le_right _ _)
  by_cases h1 : f e1 = min (f e1) (min (f e2) (f e3))
  · rw [if_pos h1]
    exact pyMinBy_three_of_first (h1 ▸ hlb2) (h1 ▸ hlb3)
  · rw [if_neg h1]
    have h1lt : min (f e1) (min (f e2) (f e3)) < f e1 :=
      lt_of_le_of_ne hlb1 (fun h => h1 h.symm)
    by_cases h2 : f e2 = min (f e1) (min (f e2) (f e3))
    · rw [if_pos h2]
      exact pyMinBy_three_of_second (h2 ▸ h1lt) (h2 ▸ hlb3)
    · have h2lt : min (f e1) (min (f e2) (f e3)) < f e2 :=
        lt_of_le_of_ne hlb2 (fun h => h2 h.symm)
      have h3 : f e3 = min (f e1) (min (f e2) (f e3)) := by
        rcases min_choice (f e1) (min (f e2) (f e3)) with h | h
        · exact absurd h.symm h1
        · rcases min_choice (f e2) (f e3) with h' | h'
          · exact absurd (h.trans h').symm h2
          · exact (h.trans h').symm
      rw [if_neg h2]
      exact pyMinBy_three_of_third (h3 ▸ h1lt) (h3 ▸ h2lt)

theorem map_snd_sum_scale (l : List (String × ℚ)) :
    (l.map (fun p => 2 * p.2)).sum = 2 * ((l.map Prod.snd).sum) := by
  induction l with
  | nil => simp
  | cons a l ih =>
    simp only [List.map_cons, List.sum_cons, ih]
    ring

/-- One sweep iteration restores the calculator state it started from, and
records the scenario of the original state at the swept percentage. -/
theorem sensitivity_step_eq (s : OptCalc) (input_pct : ℚ) :
    sensitivity_step s input_pct = (s, scenario_at s input_pct) := rfl

/-- Normal form of the sweep: because every iteration restores the saved
input_level, each scenario is computed from the original state at its own
percentage, and the final state is the original one. -/
theorem sensitivity_sweep_eq (s : OptCalc) :
    sensitivity_sweep s = (s, sweep_levels.map (scenario_at s)) := by
  simp [sensitivity_sweep, sweep_levels, sensitivity_step_eq]

theorem lookup_ne_key_append_single (l : List (String × ℚ)) (k : String) (v : ℚ)
    (hl : ∀ p ∈ l, p.1 ≠ k) :
    (l ++ [(k, v)]).lookup k = some v := by
  induction l with
  | nil => simp [List.lookup]
  | cons a l ih =>
    obtain ⟨a1, a2⟩ := a
    have ha : a1 ≠ k := hl (a1, a2) (List.mem_cons_self _ _)
    have hk : (k == a1) = false := beq_eq_false_iff_ne.2 (Ne.symm ha)
    have hl' : ∀ p ∈ l, p.1 ≠ k := fun p hp => hl p (List.mem_cons_of_mem _ hp)
    simp [List.lookup, hk, ih hl']

theorem filter_ne_key_append_single (l : List (String × ℚ)) (k : String) (v : ℚ)
    (hl : ∀ p ∈ l, p.1 ≠ k) :
    (l ++ [(k, v)]).filter (fun p => p.1 != k) = l := by
  induction l with
  | nil => simp
  | cons a l ih =>
    have ha : a.1 ≠ k := hl a (List.mem_cons_self _ _)
    have hl' : ∀ p ∈ l, p.1 ≠ k := fun p hp => hl p (List.mem_cons_of_mem _ hp)
    simp [List.filter_cons, ha, ih hl']

/-- None of the line items built by get_total_input_cost uses the reserved
total_cost key, in any branch of the item construction. -/
theorem get_total_input_cost_items_keys (crop_type : String) (hectares : ℚ)
    (use_optimal : Bool) :
    ∀ p ∈ get_total_input_cost_items crop_type hectares use_optimal,
      p.1 ≠ "total_cost" := by
  have hall : (get_total_input_cost_items crop_type hectares use_optimal).all
      (fun p => p.1 != "total_cost") = true := by
    unfold get_total_input_cost_items
    cases use_optimal <;>
    cases hsr : (SEED_REQUIREMENTS.lookup crop_type).isSome <;>
    cases hscl : SEED_COSTS.lookup (crop_type ++ "_local") <;>
    cases hsci : SEED_COSTS.lookup (crop_type ++ "_improved") <;>
    cases hfr : FERTILIZER_REQUIREMENTS.lookup crop_type <;>
    simp [hsr, hscl, hsci, hfr]
  intro p hp
  exact bne_iff_ne.1 (List.all_eq_true.1 hall p hp)

/-- C1: for every crop, land size and strategy pipeline (yield-max via
get_total_input_cost, cost-min via calculate_minimal_plan, balanced via
calculate_optimized_plan), the total_cost entry of the returned cost
breakdown equals the sum of all individual cost line items of that breakdown,
the transport and storage items added after the yield model runs included.
In the yield-max breakdown no transport or storage item exists (its transport
cost lives in the revenue record), so its total is the sum of the items it
does hold; in the other two pipelines the total includes the transport and
storage amounts added by the two += updates after the yield computation.
The equality is exact in rational arithmetic (stronger than the 1e-6
relative tolerance the specification allows). -/
theorem claim_C1 (crop_type : String) (hectares input_level : ℚ) (use_optimal : Bool) :
    ((get_total_input_cost crop_type hectares use_optimal).lookup "total_cost"
        = some ((((get_total_input_cost crop_type hectares use_optimal).filter
              (fun p => p.1 != "total_cost")).map Prod.snd).sum))
    ∧ ((calculate_minimal_plan crop_type hectares).cost_breakdown.total_cost
        = (calculate_minimal_plan crop_type hectares).cost_breakdown.line_items_sum)
    ∧ ((calculate_optimized_plan crop_type hectares input_level).cost_breakdown.total_cost
        = (calculate_optimized_plan crop_type hectares
            input_level).cost_breakdown.line_items_sum) := by
  refine ⟨?_, ?_, ?_⟩
  · have hkeys := get_total_input_cost_items_keys crop_type hectares use_optimal
    simp only [get_total_input_cost]
    rw [lookup_ne_key_append_single _ _ _ hkeys, filter_ne_key_append_single _ _ _ hkeys]
  · cases hfr : FERTILIZER_REQUIREMENTS.lookup crop_type <;>
    · dsimp only [calculate_minimal_plan, CostBreakdown.line_items_sum]
      rw [hfr]
      ring
  · cases hfr : FERTILIZER_REQUIREMENTS.lookup crop_type <;>
    · dsimp only [calculate_optimized_plan, CostBreakdown.line_items_sum]
      rw [hfr]
      ring

theorem get_total_input_cost_items_scale (crop_type : String) (h : ℚ) (use_optimal : Bool) :
    get_total_input_cost_items crop_type (2 * h) use_optimal
      = (get_total_input_cost_items crop_type h use_optimal).map
          (fun p => (p.1, 2 * p.2)) := by
  unfold get_total_input_cost_items
  cases use_optimal <;>
  cases hsr : (SEED_REQUIREMENTS.lookup crop_type).isSome <;>
  cases hscl : SEED_COSTS.lookup (crop_type ++ "_local") <;>
  cases hsci : SEED_COSTS.lookup (crop_type ++ "_improved") <;>
  cases hfr : FERTILIZER_REQUIREMENTS.lookup crop_type <;>
  simp [hsr, hscl, hsci, hfr] <;>
  and_intros <;>
  ring

/-- C2: doubling the land size doubles every cost line item, the total cost,
the total production and the gross and net revenue, in each of the three
strategy pipelines; proved for all land sizes and all input levels, which
covers all three strategy settings of the balanced calculator. -/
theorem claim_C2 (crop_type : String) (h input_level : ℚ) (use_optimal : Bool) :
    (get_total_input_cost crop_type (2 * h) use_optimal
        = (get_total_input_cost crop_type h use_optimal).map (fun p => (p.1, 2 * p.2)))
    ∧ ((calculate_expected_revenue crop_type (2 * h) use_optimal).total_production_tons
        = 2 * (calculate_expected_revenue crop_type h use_optimal).total_production_tons)
    ∧ ((calculate_expected_revenue crop_type (2 * h) use_optimal).marketable_production_tons
        = 2 * (calculate_expected_revenue crop_type h
            use_optimal).marketable_production_tons)
    ∧ ((calculate_expected_revenue crop_type (2 * h) use_optimal).gross_revenue
        = 2 * (calculate_expected_revenue crop_type h use_optimal).gross_revenue)
    ∧ ((calculate_expected_revenue crop_type (2 * h) use_optimal).transportation_cost
        = 2 * (calculate_expected_revenue crop_type h use_optimal).transportation_cost)
    ∧ ((calculate_expected_revenue crop_type (2 * h) use_optimal).net_revenue
        = 2 * (calculate_expected_revenue crop_type h use_optimal).net_revenue)
    ∧ ((calculate_minimal_plan crop_type (2 * h)).cost_breakdown.land_preparation
        = 2 * (calculate_minimal_plan crop_type h).cost_breakdown.land_preparation)
    ∧ ((calculate_minimal_plan crop_type (2 * h)).cost_breakdown.seeds
        = 2 * (calculate_minimal_plan crop_type h).cost_breakdown.seeds)
    ∧ ((calculate_minimal_plan crop_type (2 * h)).cost_breakdown.fertilizers
        = 2 * (calculate_minimal_plan crop_type h).cost_breakdown.fertilizers)
    ∧ ((calculate_minimal_plan crop_type (2 * h)).cost_breakdown.pesticides
        = 2 * (calculate_minimal_plan crop_type h).cost_breakdown.pesticides)
    ∧ ((calculate_minimal_plan crop_type (2 * h)).cost_breakdown.labor
        = 2 * (calculate_minimal_plan crop_type h).cost_breakdown.labor)
    ∧ ((calculate_minimal_plan crop_type (2 * h)).cost_breakdown.equipment
        = 2 * (calculate_minimal_plan crop_type h).cost_breakdown.equipment)
    ∧ ((calculate_minimal_plan crop_type (2 * h)).cost_breakdown.irrigation
        = 2 * (calculate_minimal_plan crop_type h).cost_breakdown.irrigation)
    ∧ ((calculate_minimal_plan crop_type (2 * h)).cost_breakdown.transportation
        = 2 * (calculate_minimal_plan crop_type h).cost_breakdown.transportation)
    ∧ ((calculate_minimal_plan crop_type (2 * h)).cost_breakdown.storage
        = 2 * (calculate_minimal_plan crop_type h).cost_breakdown.storage)
    ∧ ((calculate_minimal_plan crop_type (2 * h)).cost_breakdown.total_cost
        = 2 * (calculate_minimal_plan crop_type h).cost_breakdown.total_cost)
    ∧ ((calculate_minimal_plan crop_type (2 * h)).total_production_tons
        = 2 * (calculate_minimal_plan crop_type h).total_production_tons)
    ∧ ((calculate_minimal_plan crop_type (2 * h)).gross_revenue
        = 2 * (calculate_minimal_plan crop_type h).gross_revenue)
    ∧ ((calculate_minimal_plan crop_type (2 * h)).net_revenue
        = 2 * (calculate_minimal_plan crop_type h).net_revenue)
    ∧ ((calculate_optimized_plan crop_type (2 * h) input_level).cost_breakdown.land_preparation
        = 2 * (calculate_optimized_plan crop_type h input_level).cost_breakdown.land_preparation)
    ∧ ((calculate_optimized_plan crop_type (2 * h) input_level).cost_breakdown.seeds
        = 2 * (calculate_optimized_plan crop_type h input_level).cost_breakdown.seeds)
    ∧ ((calculate_optimized_plan crop_type (2 * h) input_level).cost_breakdown.fertilizers
        = 2 * (calculate_optimized_plan crop_type h input_level).cost_breakdown.fertilizers)
    ∧ ((calculate_optimized_plan crop_type (2 * h) input_level).cost_breakdown.pesticides
        = 2 * (calculate_optimized_plan crop_type h input_level).cost_breakdown.pesticides)
    ∧ ((calculate_optimized_plan crop_type (2 * h) input_level).cost_breakdown.labor
        = 2 * (calculate_optimized_plan crop_type h input_level).cost_breakdown.labor)
    ∧ ((calculate_optimized_plan crop_type (2 * h) input_level).cost_breakdown.equipment
        = 2 * (calculate_optimized_plan crop_type h input_level).cost_breakdown.equipment)
    ∧ ((calculate_optimized_plan crop_type (2 * h) input_level).cost_breakdown.irrigation
        = 2 * (calculate_optimized_plan crop_type h input_level).cost_breakdown.irrigation)
    ∧ ((calculate_optimized_plan crop_type (2 * h) input_level).cost_breakdown.transportation
        = 2 * (calculate_optimized_plan crop_type h input_level).cost_breakdown.transportation)
    ∧ ((calculate_optimized_plan crop_type (2 * h) input_level).cost_breakdown.storage
        = 2 * (calculate_optimized_plan crop_type h input_level).cost_breakdown.storage)
    ∧ ((calculate_optimized_plan crop_type (2 * h) input_level).cost_breakdown.total_cost
        = 2 * (calculate_optimized_plan crop_type h input_level).cost_breakdown.total_cost)
    ∧ ((calculate_optimized_plan crop_type (2 * h) input_level).total_production_tons
        = 2 * (calculate_optimized_plan crop_type h input_level).total_production_tons)
    ∧ ((calculate_optimized_plan crop_type (2 * h) input_level).gross_revenue
        = 2 * (calculate_optimized_plan crop_type h input_level).gross_revenue)
    ∧ ((calculate_optimized_plan crop_type (2 * h) input_level).net_revenue
        = 2 * (calculate_optimized_plan crop_type h input_level).net_revenue) := by
  refine ⟨?_, ?_⟩
  · simp only [get_total_input_cost]
    rw [get_total_input_cost_items_scale]
    simp [Function.comp_def, map_snd_sum_scale]
  · cases hfr : FERTILIZER_REQUIREMENTS.lookup crop_type <;>
    · dsimp only [calculate_expected_revenue, calculate_minimal_plan,
        calculate_optimized_plan]
      rw [hfr]
      and_intros <;> ring

/-- C3 counterexample: at input intensity 1 the balanced-strategy yield
factor of the source, 0.60 + intensity * 0.45, evaluates to 1.05, so the
maize yield per hectare is 4.5 * 1.05 = 4.725 tons, strictly above the
optimal yield 4.5. An affine factor of the claimed form
floor + (1 - floor) * intensity equals exactly 1 at intensity 1 for every
floor, so the computed factor both differs from that form and exceeds 1 at
intensity 1, refuting the claim. -/
theorem claim_C3_counterexample :
    (calculate_optimized_plan "maize" 1 1).expected_yield_per_ha_tons = 4.725
    ∧ (4.5 : ℚ) < 4.725 := by
  constructor
  · norm_num [calculate_optimized_plan, OPTIMAL_YIELDS, List.lookup]
  · norm_num

/-- C3 amended: for every crop with an optimal-yield table entry (exactly
maize, rice, cassava, groundnut and beans) and every input intensity, the
balanced strategy computes yield per hectare as the optimal yield times the
affine factor 0.60 + 0.45 * intensity: the floor is 0.60 but the slope is
0.45 rather than 1 - floor = 0.40, so the factor exceeds 1 for every
intensity above 8/9 and reaches 1.05 at intensity 1. -/
theorem claim_C3_amended (land_size input_level : ℚ) :
    ((calculate_optimized_plan "maize" land_size input_level).expected_yield_per_ha_tons
        = 4.5 * (0.60 + input_level * 0.45))
    ∧ ((calculate_optimized_plan "rice" land_size input_level).expected_yield_per_ha_tons
        = 5.5 * (0.60 + input_level * 0.45))
    ∧ ((calculate_optimized_plan "cassava" land_size input_level).expected_yield_per_ha_tons
        = 22.0 * (0.60 + input_level * 0.45))
    ∧ ((calculate_optimized_plan "groundnut" land_size input_level).expected_yield_per_ha_tons
        = 3.0 * (0.60 + input_level * 0.45))
    ∧ ((calculate_optimized_plan "beans" land_size input_level).expected_yield_per_ha_tons
        = 2.2 * (0.60 + input_level * 0.45)) := by
  refine ⟨?_, ?_, ?_, ?_, ?_⟩ <;>
    simp [calculate_optimized_plan, OPTIMAL_YIELDS, List.lookup]

/-- C4 counterexample:cocoa is absent from every yield and price table, yet
both the yield-and-revenue computation and the cost-minimization plan return
ordinary defaulted results for it instead of failing: the source contains no
raise statement at all, so the embedding is a total function. The yield-max
path silently substitutes yield 0 and price 0; the cost-min path silently
substitutes yield 2.0 * 0.55 = 1.1 tons per hectare and price 500. -/
theorem claim_C4_counterexample :
    (calculate_expected_revenue "cocoa" 1 true).yield_per_ha_tons = 0
    ∧ (calculate_expected_revenue "cocoa" 1 true).price_per_kg = 0
    ∧ (calculate_minimal_plan "cocoa" 1).expected_yield_per_ha_tons = 1.1
    ∧ (calculate_minimal_plan "cocoa" 1).farmgate_price_per_kg = 500 := by
  have e1 : OPTIMAL_YIELDS.lookup "cocoa" = none := by decide
  have e2 : EXPECTED_YIELDS.lookup ("cocoa" ++ "_with_inputs") = none := by decide
  have e3 : FARMGATE_PRICES.lookup "cocoa" = none := by decide
  have e4 : MARKET_PRICES.lookup "cocoa" = none := by decide
  have e5 : EXPECTED_YIELDS.lookup ("cocoa" ++ "_basic") = none := by decide
  refine ⟨?_, ?_, ?_, ?_⟩ <;>
    norm_num [calculate_expected_revenue, calculate_minimal_plan, e1, e2, e3, e4, e5]

/-- C4 amended: for every crop identifier absent from the yield and price
reference tables, the computation does not fail: calculate_expected_revenue
silently substitutes the default yield 0 and price 0 (making gross revenue
0), and calculate_minimal_plan silently substitutes the default yield
2.0 * 0.55 tons per hectare and the default farmgate price 500; no
UnknownCropError exists anywhere in the code. -/
theorem claim_C4_amended (crop_type : String) (hectares land_size : ℚ)
    (h1 : OPTIMAL_YIELDS.lookup crop_type = none)
    (h2 : EXPECTED_YIELDS.lookup (crop_type ++ "_with_inputs") = none)
    (h3 : FARMGATE_PRICES.lookup crop_type = none)
    (h4 : MARKET_PRICES.lookup crop_type = none)
    (h5 : EXPECTED_YIELDS.lookup (crop_type ++ "_basic") = none) :
    (calculate_expected_revenue crop_type hectares true).yield_per_ha_tons = 0
    ∧ (calculate_expected_revenue crop_type hectares true).price_per_kg = 0
    ∧ (calculate_expected_revenue crop_type hectares true).gross_revenue = 0
    ∧ (calculate_minimal_plan crop_type land_size).expected_yield_per_ha_tons = 2.0 * 0.55
    ∧ (calculate_minimal_plan crop_type land_size).farmgate_price_per_kg = 500 := by
  refine ⟨?_, ?_, ?_, ?_, ?_⟩ <;>
    simp [calculate_expected_revenue, calculate_minimal_plan, h1, h2, h3, h4, h5]

/-- C4 witness: the amended theorem applied at the concrete absent crop
cocoa, each table-absence hypothesis discharged by evaluation. -/
theorem claim_C4_witness :
    (OPTIMAL_YIELDS.lookup "cocoa" = none
      ∧ EXPECTED_YIELDS.lookup ("cocoa" ++ "_with_inputs") = none
      ∧ FARMGATE_PRICES.lookup "cocoa" = none
      ∧ MARKET_PRICES.lookup "cocoa" = none
      ∧ EXPECTED_YIELDS.lookup ("cocoa" ++ "_basic") = none)
    ∧ ((calculate_expected_revenue "cocoa" 1 true).yield_per_ha_tons = 0
      ∧ (calculate_expected_revenue "cocoa" 1 true).price_per_kg = 0
      ∧ (calculate_expected_revenue "cocoa" 1 true).gross_revenue = 0
      ∧ (calculate_minimal_plan "cocoa" 1).expected_yield_per_ha_tons = 2.0 * 0.55
      ∧ (calculate_minimal_plan "cocoa" 1).farmgate_price_per_kg = 500) :=
  ⟨⟨by decide, by decide, by decide, by decide, by decide⟩,
   claim_C4_amended "cocoa" 1 1 (by decide) (by decide) (by decide) (by decide) (by decide)⟩

theorem OY_maize : OPTIMAL_YIELDS.lookup "maize" = some 4.5 := rfl

theorem OY_rice : OPTIMAL_YIELDS.lookup "rice" = some 5.5 := rfl

theorem OY_cassava : OPTIMAL_YIELDS.lookup "cassava" = some 22.0 := rfl

theorem OY_groundnut : OPTIMAL_YIELDS.lookup "groundnut" = some 3.0 := rfl

theorem OY_beans : OPTIMAL_YIELDS.lookup "beans" = some 2.2 := rfl

theorem SC_maize_improved : SEED_COSTS.lookup ("maize" ++ "_improved") = some 2100 := rfl

theorem SC_rice_improved : SEED_COSTS.lookup ("rice" ++ "_improved") = some 1800 := rfl

theorem SC_cassava_improved : SEED_COSTS.lookup ("cassava" ++ "_improved") = none := rfl

theorem SC_groundnut_improved : SEED_COSTS.lookup ("groundnut" ++ "_improved") = none := rfl

theorem SC_beans_improved : SEED_COSTS.lookup ("beans" ++ "_improved") = none := rfl

theorem SC_cassava : SEED_COSTS.lookup "cassava" = none := rfl

theorem SC_groundnut : SEED_COSTS.lookup "groundnut" = some 1200 := rfl

theorem SC_beans : SEED_COSTS.lookup "beans" = some 1500 := rfl

theorem SC_maize_local : SEED_COSTS.lookup ("maize" ++ "_local") = some 800 := rfl

theorem SC_cassava_local : SEED_COSTS.lookup ("cassava" ++ "_local") = none := rfl

theorem SR_maize_improved : SEED_REQUIREMENTS.lookup ("maize" ++ "_improved") = some 25 := rfl

theorem SR_rice_improved : SEED_REQUIREMENTS.lookup ("rice" ++ "_improved") = some 80 := rfl

theorem SR_maize_local : SEED_REQUIREMENTS.lookup ("maize" ++ "_local") = some 30 := rfl

theorem SR_cassava : SEED_REQUIREMENTS.lookup "cassava" = none := rfl

theorem SR_groundnut : SEED_REQUIREMENTS.lookup "groundnut" = some 90 := rfl

theorem SR_beans : SEED_REQUIREMENTS.lookup "beans" = some 70 := rfl

theorem FR_maize :
    FERTILIZER_REQUIREMENTS.lookup "maize"
      = some { npk_bags := some 4, urea_bags := some 3 } := rfl

theorem FR_rice :
    FERTILIZER_REQUIREMENTS.lookup "rice"
      = some { npk_bags := some 5, urea_bags := some 4 } := rfl

theorem FR_cassava :
    FERTILIZER_REQUIREMENTS.lookup "cassava"
      = some { npk_bags := some 3, organic_manure_tons := some 2 } := rfl

theorem FR_groundnut :
    FERTILIZER_REQUIREMENTS.lookup "groundnut"
      = some { npk_bags := some 2, organic_manure_tons := some 1 } := rfl

theorem FR_beans :
    FERTILIZER_REQUIREMENTS.lookup "beans"
      = some { npk_bags := some 2, dap_bags := some 2 } := rfl

theorem PH_maize : POST_HARVEST_LOSSES.lookup "maize" = some 0.11 := rfl

theorem PH_rice : POST_HARVEST_LOSSES.lookup "rice" = some 0.15 := rfl

theorem PH_cassava : POST_HARVEST_LOSSES.lookup "cassava" = some 0.30 := rfl

theorem PH_groundnut : POST_HARVEST_LOSSES.lookup "groundnut" = some 0.12 := rfl

theorem PH_beans : POST_HARVEST_LOSSES.lookup "beans" = some 0.10 := rfl

theorem FP_maize : FARMGATE_PRICES.lookup "maize" = some 480 := rfl

theorem FP_rice : FARMGATE_PRICES.lookup "rice" = some 680 := rfl

theorem FP_cassava : FARMGATE_PRICES.lookup "cassava" = none := rfl

theorem FP_groundnut : FARMGATE_PRICES.lookup "groundnut" = some 900 := rfl

theorem FP_beans : FARMGATE_PRICES.lookup "beans" = some 780 := rfl

theorem EY_maize_basic : EXPECTED_YIELDS.lookup ("maize" ++ "_basic") = some 1.8 := rfl

theorem SR_maize_plain : SEED_REQUIREMENTS.lookup "maize" = none := rfl

/-- The total entry of the yield-max cost dict equals the sum of the item
values, read off through the appended total entry. -/
theorem breakdown_total_get_total_input_cost (crop_type : String) (hectares : ℚ)
    (use_optimal : Bool) :
    breakdown_total (get_total_input_cost crop_type hectares use_optimal)
      = ((get_total_input_cost_items crop_type hectares use_optimal).map Prod.snd).sum := by
  have hkeys := get_total_input_cost_items_keys crop_type hectares use_optimal
  simp only [get_total_input_cost, breakdown_total]
  rw [lookup_ne_key_append_single _ _ _ hkeys]
  rfl

/-- pydiv with divisor 0 raises the division error. -/
theorem pydiv_zero (num : ℚ) : pydiv num 0 = Except.error PyError.zeroDivision := by
  simp [pydiv]

/-- pydiv with a nonzero divisor returns the exact quotient. -/
theorem pydiv_ne_zero (num den : ℚ) (h : den ≠ 0) :
    pydiv num den = Except.ok (num / den) := by
  simp [pydiv, h]

/-- At land size 0 the cost-min method raises ZeroDivisionError computing
its unguarded cost_per_hectare entry. -/
theorem run_minimal_plan_zero (crop_type : String) :
    run_minimal_plan crop_type 0 = Except.error PyError.zeroDivision := by
  have hc : (calculate_minimal_plan crop_type 0).cost_per_hectare
      = Except.error PyError.zeroDivision := by
    dsimp only [calculate_minimal_plan]
    exact pydiv_zero _
  simp only [run_minimal_plan, hc]

/-- At a nonzero land size the cost-min method returns its result dict. -/
theorem run_minimal_plan_ok (crop_type : String) (hectares : ℚ) (h : hectares ≠ 0) :
    run_minimal_plan crop_type hectares
      = Except.ok (calculate_minimal_plan crop_type hectares) := by
  have hc : (calculate_minimal_plan crop_type hectares).cost_per_hectare
      = Except.ok ((calculate_minimal_plan crop_type
          hectares).cost_breakdown.total_cost / hectares) := by
    dsimp only [calculate_minimal_plan]
    exact pydiv_ne_zero _ _ h
  simp only [run_minimal_plan, hc]

/-- At land size 0 the balanced method raises ZeroDivisionError computing
its unguarded local profit_per_hectare. -/
theorem run_optimized_plan_zero (crop_type : String) (input_level : ℚ) :
    run_optimized_plan crop_type 0 input_level = Except.error PyError.zeroDivision := by
  have hp : (calculate_optimized_plan crop_type 0 input_level).profit_per_hectare
      = Except.error PyError.zeroDivision := by
    dsimp only [calculate_optimized_plan]
    exact pydiv_zero _
  simp only [run_optimized_plan, hp]

/-- At a nonzero land size the balanced method returns its result dict. -/
theorem run_optimized_plan_ok (crop_type : String) (hectares input_level : ℚ)
    (h : hectares ≠ 0) :
    run_optimized_plan crop_type hectares input_level
      = Except.ok (calculate_optimized_plan crop_type hectares input_level) := by
  have hp : (calculate_optimized_plan crop_type hectares input_level).profit_per_hectare
      = Except.ok ((calculate_optimized_plan crop_type hectares
          input_level).net_profit / hectares) := by
    dsimp only [calculate_optimized_plan]
    exact pydiv_ne_zero _ _ h
  have hc : (calculate_optimized_plan crop_type hectares input_level).cost_per_hectare
      = Except.ok ((calculate_optimized_plan crop_type hectares
          input_level).cost_breakdown.total_cost / hectares) := by
    dsimp only [calculate_optimized_plan]
    exact pydiv_ne_zero _ _ h
  simp only [run_optimized_plan, hp, hc]

/-- C5 counterexample: at land size 0 — the only input where the cost-min
and balanced totals are 0 — those two pipelines do throw a division error:
the unguarded per-hectare entries divide by the land size before any result
is returned, so the ROI guard never reports the sentinel 0 there and the
claim that no profitability computation ever throws is refuted. -/
theorem claim_C5_counterexample :
    (calculate_minimal_plan "maize" 0).cost_breakdown.total_cost = 0
    ∧ run_minimal_plan "maize" 0 = Except.error PyError.zeroDivision
    ∧ (calculate_optimized_plan "maize" 0 0.75).cost_breakdown.total_cost = 0
    ∧ run_optimized_plan "maize" 0 0.75 = Except.error PyError.zeroDivision := by
  refine ⟨?_, run_minimal_plan_zero _, ?_, run_optimized_plan_zero _ _⟩
  · norm_num [calculate_minimal_plan, SC_maize_local, SR_maize_local, FR_maize,
      EY_maize_basic, PH_maize, FP_maize]
  · norm_num [calculate_optimized_plan, SC_maize_improved, SR_maize_improved, FR_maize,
      OY_maize, PH_maize, FP_maize]

/-- C5 amended: each explicitly guarded metric (ROI, break-even price,
per-kg metrics, production efficiency) degrades to the sentinel 0 when its
guarded quantity is 0, and the yield-max profitability pipeline never
raises; but the cost-min and balanced methods compute unguarded per-hectare
ratios dividing by the land size, so both raise ZeroDivisionError at land
size 0 and return their result dicts exactly at nonzero land sizes. -/
theorem claim_C5_amended (crop_type : String) (hectares input_level : ℚ) (use_optimal : Bool) :
    (breakdown_total (get_total_input_cost crop_type hectares use_optimal) = 0 →
      (calculate_profit crop_type hectares use_optimal).roi_percentage = 0)
    ∧ ((calculate_expected_revenue crop_type hectares
          use_optimal).marketable_production_tons = 0 →
      (calculate_profit crop_type hectares use_optimal).break_even_price = 0)
    ∧ ((calculate_minimal_plan crop_type hectares).cost_breakdown.total_cost = 0 →
      (calculate_minimal_plan crop_type hectares).roi_percentage = 0)
    ∧ ((calculate_minimal_plan crop_type hectares).marketable_production_tons = 0 →
      (calculate_minimal_plan crop_type hectares).break_even_price_per_kg = 0)
    ∧ ((calculate_optimized_plan crop_type hectares input_level).cost_breakdown.total_cost
          = 0 →
      (calculate_optimized_plan crop_type hectares input_level).roi_percentage = 0
      ∧ (calculate_optimized_plan crop_type hectares input_level).production_efficiency = 0)
    ∧ ((calculate_optimized_plan crop_type hectares
          input_level).marketable_production_tons = 0 →
      (calculate_optimized_plan crop_type hectares input_level).break_even_price_per_kg = 0
      ∧ (calculate_optimized_plan crop_type hectares input_level).cost_per_kg_produced = 0
      ∧ (calculate_optimized_plan crop_type hectares
          input_level).profit_per_kg_produced = 0)
    ∧ (hectares = 0 →
      run_minimal_plan crop_type hectares = Except.error PyError.zeroDivision
      ∧ run_optimized_plan crop_type hectares input_level
          = Except.error PyError.zeroDivision)
    ∧ (hectares ≠ 0 →
      run_minimal_plan crop_type hectares
          = Except.ok (calculate_minimal_plan crop_type hectares)
      ∧ run_optimized_plan crop_type hectares input_level
          = Except.ok (calculate_optimized_plan crop_type hectares input_level)) := by
  refine ⟨?_, ?_, ?_, ?_, ?_, ?_, ?_, ?_⟩ <;> intro h
  · dsimp only [calculate_profit]
    rw [h]
    norm_num
  · dsimp only [calculate_profit]
    rw [h]
    norm_num
  · dsimp only [calculate_minimal_plan] at h ⊢
    rw [h]
    norm_num
  · dsimp only [calculate_minimal_plan] at h ⊢
    rw [h]
    norm_num
  · dsimp only [calculate_optimized_plan] at h ⊢
    rw [h]
    norm_num
  · dsimp only [calculate_optimized_plan] at h ⊢
    rw [h]
    norm_num
  · subst h
    exact ⟨run_minimal_plan_zero _, run_optimized_plan_zero _ _⟩
  · exact ⟨run_minimal_plan_ok _ _ h, run_optimized_plan_ok _ _ _ h⟩

/-- C5 witness: at maize and land size 0 every guard antecedent holds and
every guarded metric is the sentinel 0, while both unguarded method calls
raise the division error; at land size 1 both calls return their dicts. -/
theorem claim_C5_witness :
    (breakdown_total (get_total_input_cost "maize" 0 true) = 0
      ∧ (calculate_expected_revenue "maize" 0 true).marketable_production_tons = 0
      ∧ (calculate_minimal_plan "maize" 0).cost_breakdown.total_cost = 0
      ∧ (calculate_minimal_plan "maize" 0).marketable_production_tons = 0
      ∧ (calculate_optimized_plan "maize" 0 0.75).cost_breakdown.total_cost = 0
      ∧ (calculate_optimized_plan "maize" 0 0.75).marketable_production_tons = 0)
    ∧ ((calculate_profit "maize" 0 true).roi_percentage = 0
      ∧ (calculate_profit "maize" 0 true).break_even_price = 0
      ∧ (calculate_minimal_plan "maize" 0).roi_percentage = 0
      ∧ (calculate_minimal_plan "maize" 0).break_even_price_per_kg = 0
      ∧ (calculate_optimized_plan "maize" 0 0.75).roi_percentage = 0
      ∧ (calculate_optimized_plan "maize" 0 0.75).break_even_price_per_kg = 0)
    ∧ (run_minimal_plan "maize" 0 = Except.error PyError.zeroDivision
      ∧ run_optimized_plan "maize" 0 0.75 = Except.error PyError.zeroDivision)
    ∧ (run_minimal_plan "maize" 1 = Except.ok (calculate_minimal_plan "maize" 1)
      ∧ run_optimized_plan "maize" 1 0.75
          = Except.ok (calculate_optimized_plan "maize" 1 0.75)) := by
  have h1 : breakdown_total (get_total_input_cost "maize" 0 true) = 0 := by
    rw [breakdown_total_get_total_input_cost]
    norm_num [get_total_input_cost_items, SR_maize_plain, FR_maize]
  have h2 : (calculate_expected_revenue "maize" 0 true).marketable_production_tons = 0 := by
    norm_num [calculate_expected_revenue]
  have h3 : (calculate_minimal_plan "maize" 0).cost_breakdown.total_cost = 0 := by
    norm_num [calculate_minimal_plan, SC_maize_local, SR_maize_local, FR_maize,
      EY_maize_basic, PH_maize, FP_maize]
  have h4 : (calculate_minimal_plan "maize" 0).marketable_production_tons = 0 := by
    norm_num [calculate_minimal_plan]
  have h5 : (calculate_optimized_plan "maize" 0 0.75).cost_breakdown.total_cost = 0 := by
    norm_num [calculate_optimized_plan, SC_maize_improved, SR_maize_improved, FR_maize,
      OY_maize, PH_maize, FP_maize]
  have h6 : (calculate_optimized_plan "maize" 0 0.75).marketable_production_tons = 0 := by
    norm_num [calculate_optimized_plan]
  exact ⟨⟨h1, h2, h3, h4, h5, h6⟩,
    ⟨(claim_C5_amended "maize" 0 0.75 true).1 h1,
     (claim_C5_amended "maize" 0 0.75 true).2.1 h2,
     (claim_C5_amended "maize" 0 0.75 true).2.2.1 h3,
     (claim_C5_amended "maize" 0 0.75 true).2.2.2.1 h4,
     ((claim_C5_amended "maize" 0 0.75 true).2.2.2.2.1 h5).1,
     ((claim_C5_amended "maize" 0 0.75 true).2.2.2.2.2.1 h6).1⟩,
    (claim_C5_amended "maize" 0 0.75 true).2.2.2.2.2.2.1 rfl,
    (claim_C5_amended "maize" 1 0.75 true).2.2.2.2.2.2.2 (by norm_num)⟩

/-- The minimal-plan total cost for one hectare of maize: 39000 land prep +
24000 seeds + 82000 fertilizer + 19600 pesticide + 32400 labor + 26000
equipment + 9531.9 transport + 4005 storage = 236536.9 XAF. -/
theorem minimal_plan_maize_total :
    (calculate_minimal_plan "maize" 1).cost_breakdown.total_cost = 2365369 / 10 := by
  norm_num [calculate_minimal_plan, SC_maize_local, SR_maize_local, FR_maize,
    EY_maize_basic, PH_maize, FP_maize, LAND_PREP_COSTS.tillage_per_ha,
    FERTILIZER_COSTS.npk_compound, FERTILIZER_COSTS.organic_manure_ton,
    PESTICIDE_COSTS.herbicide_per_ha, LABOR_COSTS.daily_wage,
    LABOR_COSTS.planting_days_per_ha, LABOR_COSTS.weeding_days_per_ha,
    LABOR_COSTS.harvesting_days_per_ha, LABOR_COSTS.other_operations_days_per_ha,
    EQUIPMENT_COSTS.tractor_ploughing_per_ha, TRANSPORT_COSTS.farm_to_market_per_ton,
    STORAGE_COSTS.on_farm_storage_per_ton]

/-- C6 counterexample: for maize on 1 hectare with budget 200000 XAF (below
the minimum cost 236536.9 XAF) the result is indeed the infeasible variant
with suggested land size budget / total_cost * land = 2000000/2365369
hectares, but the claimed shortfall of 36536.9 XAF is carried nowhere in the
result: the infeasible dict holds only the feasibility flag, the message
interpolating the budget and requested land size, the recommendation
interpolating the affordable land size, and fixed alternative text. -/
theorem claim_C6_counterexample :
    optimize_within_budget "maize" 1 (some 200000)
      = BudgetAnalysis.infeasible
          { feasible := false, message_budget := 200000, message_land_size := 1,
            recommendation_land_size := 2000000 / 2365369 }
    ∧ ((2365369 / 10 : ℚ) - 200000)
        ∉ BudgetInfeasible.carried_numbers
            { feasible := false, message_budget := 200000, message_land_size := 1,
              recommendation_land_size := 2000000 / 2365369 } := by
  constructor
  · norm_num [optimize_within_budget, minimal_plan_maize_total,
      BudgetAnalysis.infeasible.injEq, BudgetInfeasible.mk.injEq]
  · norm_num [BudgetInfeasible.carried_numbers]

/-- C6 amended: for every crop and land size, a positive supplied budget
strictly below the minimum computed cost yields the distinct infeasible
result variant (not an exception) whose suggested feasible land size equals
budget / total_cost * requested land size; the variant does not carry the
shortfall (minimum cost minus budget) in any field or message. A zero budget
is treated by the source as no budget at all (Python falsiness), hence the
positivity hypothesis. -/
theorem claim_C6_amended (crop_type : String) (land_size b : ℚ) (hb : 0 < b)
    (hlt : b < (calculate_minimal_plan crop_type land_size).cost_breakdown.total_cost) :
    optimize_within_budget crop_type land_size (some b)
      = BudgetAnalysis.infeasible
          { feasible := false
            message_budget := b
            message_land_size := land_size
            recommendation_land_size :=
              b / (calculate_minimal_plan crop_type land_size).cost_breakdown.total_cost
                * land_size } := by
  simp only [optimize_within_budget]
  rw [if_neg hb.ne', if_pos hlt]

/-- C6 witness: the amended theorem at maize, 1 hectare, budget 200000 XAF,
which is positive and below the minimal cost 236536.9 XAF. -/
theorem claim_C6_witness :
    ((0 : ℚ) < 200000
      ∧ (200000 : ℚ) < (calculate_minimal_plan "maize" 1).cost_breakdown.total_cost)
    ∧ optimize_within_budget "maize" 1 (some 200000)
        = BudgetAnalysis.infeasible
            { feasible := false, message_budget := 200000, message_land_size := 1,
              recommendation_land_size :=
                200000 / (calculate_minimal_plan "maize" 1).cost_breakdown.total_cost
                  * 1 } := by
  have hlt : (200000 : ℚ) < (calculate_minimal_plan "maize" 1).cost_breakdown.total_cost := by
    rw [minimal_plan_maize_total]
    norm_num
  exact ⟨⟨by norm_num, hlt⟩, claim_C6_amended "maize" 1 200000 (by norm_num) hlt⟩

theorem strategy_recommendations_spec (cm ao ym : StrategySummary) :
    ((strategy_recommendations cm ao ym).highest_roi
      = (if cm.roi = max cm.roi (max ao.roi ym.roi) then cm.strategy
         else if ao.roi = max cm.roi (max ao.roi ym.roi) then ao.strategy
         else ym.strategy))
    ∧ ((strategy_recommendations cm ao ym).highest_profit
      = (if cm.profit = max cm.profit (max ao.profit ym.profit) then cm.strategy
         else if ao.profit = max cm.profit (max ao.profit ym.profit) then ao.strategy
         else ym.strategy))
    ∧ ((strategy_recommendations cm ao ym).most_efficient
      = (if cm.cost_per_kg = min cm.cost_per_kg (min ao.cost_per_kg ym.cost_per_kg)
           then cm.strategy
         else if ao.cost_per_kg = min cm.cost_per_kg (min ao.cost_per_kg ym.cost_per_kg)
           then ao.strategy
         else ym.strategy)) := by
  refine ⟨?_, ?_, ?_⟩
  · show (pyMaxBy (fun s : StrategySummary => s.roi) cm [ao, ym]).strategy = _
    rw [pyMaxBy_three (fun s : StrategySummary => s.roi) cm ao ym]
    rw [apply_ite StrategySummary.strategy, apply_ite StrategySummary.strategy]
  · show (pyMaxBy (fun s : StrategySummary => s.profit) cm [ao, ym]).strategy = _
    rw [pyMaxBy_three (fun s : StrategySummary => s.profit) cm ao ym]
    rw [apply_ite StrategySummary.strategy, apply_ite StrategySummary.strategy]
  · show (pyMinBy (fun s : StrategySummary => s.cost_per_kg) cm [ao, ym]).strategy = _
    rw [pyMinBy_three (fun s : StrategySummary => s.cost_per_kg) cm ao ym]
    rw [apply_ite StrategySummary.strategy, apply_ite StrategySummary.strategy]

/-- C7: for every crop, land size and input level, the comparator picks along
each axis the strategy whose metric attains the best value of the three, with
ties broken by input order (cost_minimization first, then
agricultural_optimization, then yield_maximization; first match wins, the
tie-break of the Python max and min builtins): highest_roi is the first
strategy whose ROI equals the maximum ROI, highest_profit the first whose
profit equals the maximum profit, and most_efficient the first whose cost
per kg equals the minimum cost per kg. -/
theorem claim_C7 (crop_type : String) (land_size input_level : ℚ) :
    ((compare_all_strategies crop_type land_size input_level).recommendations.highest_roi
      = (if (compare_all_strategies crop_type land_size input_level).cost_minimization.roi
            = max (compare_all_strategies crop_type land_size
                    input_level).cost_minimization.roi
                (max (compare_all_strategies crop_type land_size
                        input_level).agricultural_optimization.roi
                  (compare_all_strategies crop_type land_size
                    input_level).yield_maximization.roi)
         then (compare_all_strategies crop_type land_size
                input_level).cost_minimization.strategy
         else if (compare_all_strategies crop_type land_size
                    input_level).agricultural_optimization.roi
            = max (compare_all_strategies crop_type land_size
                    input_level).cost_minimization.roi
                (max (compare_all_strategies crop_type land_size
                        input_level).agricultural_optimization.roi
                  (compare_all_strategies crop_type land_size
                    input_level).yield_maximization.roi)
         then (compare_all_strategies crop_type land_size
                input_level).agricultural_optimization.strategy
         else (compare_all_strategies crop_type land_size
                input_level).yield_maximization.strategy))
    ∧ ((compare_all_strategies crop_type land_size
          input_level).recommendations.highest_profit
      = (if (compare_all_strategies crop_type land_size
              input_level).cost_minimization.profit
            = max (compare_all_strategies crop_type land_size
                    input_level).cost_minimization.profit
                (max (compare_all_strategies crop_type land_size
                        input_level).agricultural_optimization.profit
                  (compare_all_strategies crop_type land_size
                    input_level).yield_maximization.profit)
         then (compare_all_strategies crop_type land_size
                input_level).cost_minimization.strategy
         else if (compare_all_strategies crop_type land_size
                    input_level).agricultural_optimization.profit
            = max (compare_all_strategies crop_type land_size
                    input_level).cost_minimization.profit
                (max (compare_all_strategies crop_type land_size
                        input_level).agricultural_optimization.profit
                  (compare_all_strategies crop_type land_size
                    input_level).yield_maximization.profit)
         then (compare_all_strategies crop_type land_size
                input_level).agricultural_optimization.strategy
         else (compare_all_strategies crop_type land_size
                input_level).yield_maximization.strategy))
    ∧ ((compare_all_strategies crop_type land_size
          input_level).recommendations.most_efficient
      = (if (compare_all_strategies crop_type land_size
              input_level).cost_minimization.cost_per_kg
            = min (compare_all_strategies crop_type land_size
                    input_level).cost_minimization.cost_per_kg
                (min (compare_all_strategies crop_type land_size
                        input_level).agricultural_optimization.cost_per_kg
                  (compare_all_strategies crop_type land_size
                    input_level).yield_maximization.cost_per_kg)
         then (compare_all_strategies crop_type land_size
                input_level).cost_minimization.strategy
         else if (compare_all_strategies crop_type land_size
                    input_level).agricultural_optimization.cost_per_kg
            = min (compare_all_strategies crop_type land_size
                    input_level).cost_minimization.cost_per_kg
                (min (compare_all_strategies crop_type land_size
                        input_level).agricultural_optimization.cost_per_kg
                  (compare_all_strategies crop_type land_size
                    input_level).yield_maximization.cost_per_kg)
         then (compare_all_strategies crop_type land_size
                input_level).agricultural_optimization.strategy
         else (compare_all_strategies crop_type land_size
                input_level).yield_maximization.strategy)) :=
  strategy_recommendations_spec
    ((compare_all_strategies crop_type land_size input_level).cost_minimization)
    ((compare_all_strategies crop_type land_size input_level).agricultural_optimization)
    ((compare_all_strategies crop_type land_size input_level).yield_maximization)

/-- C8: for every calculator state, the recommended input level of the
sensitivity analysis is a level of the swept sequence 50,60,70,75,80,85,90,
95,100 whose scenario ROI equals the maximum ROI over all levels of the
sequence (the reported optimal_roi). -/
theorem claim_C8 (s : OptCalc) :
    (sensitivity_analysis s).2.recommended_input_level ∈ sweep_levels
    ∧ (scenario_at s ((sensitivity_analysis s).2.recommended_input_level)).roi
        = (sensitivity_analysis s).2.optimal_roi
    ∧ (sweep_levels.map (fun q => (scenario_at s q).roi)).maximum
        = ((sensitivity_analysis s).2.optimal_roi : WithBot ℚ) := by
  have h2 : (sensitivity_analysis s).2
      = { scenarios := scenario_at s 50 :: sweep_rest s
          recommended_input_level :=
            (pyMaxBy (fun sc => sc.roi) (scenario_at s 50) (sweep_rest s)).input_level_pct
          optimal_profit :=
            (pyMaxBy (fun sc => sc.roi) (scenario_at s 50) (sweep_rest s)).net_profit
          optimal_roi :=
            (pyMaxBy (fun sc => sc.roi) (scenario_at s 50) (sweep_rest s)).roi } := by
    simp only [sensitivity_analysis]
    rw [sensitivity_sweep_eq]
    simp [sweep_levels, sweep_rest]
  have hrec : (sensitivity_analysis s).2.recommended_input_level
      = (pyMaxBy (fun sc => sc.roi) (scenario_at s 50) (sweep_rest s)).input_level_pct := by
    rw [h2]
  have hroi : (sensitivity_analysis s).2.optimal_roi
      = (pyMaxBy (fun sc => sc.roi) (scenario_at s 50) (sweep_rest s)).roi := by
    rw [h2]
  have hlist : scenario_at s 50 :: sweep_rest s = sweep_levels.map (scenario_at s) := by
    simp [sweep_levels, sweep_rest]
  have hmem : pyMaxBy (fun sc => sc.roi) (scenario_at s 50) (sweep_rest s)
      ∈ sweep_levels.map (scenario_at s) := by
    rw [← hlist]
    exact pyMaxBy_mem _ _ _
  obtain ⟨p, hp, hbp⟩ := List.mem_map.1 hmem
  have hpct : (pyMaxBy (fun sc => sc.roi) (scenario_at s 50) (sweep_rest s)).input_level_pct
      = p := by
    rw [← hbp]
    rfl
  refine ⟨?_, ?_, ?_⟩
  · rw [hrec, hpct]
    exact hp
  · rw [hrec, hroi, hpct, hbp]
  · rw [hroi, List.maximum_eq_coe_iff]
    constructor
    · exact List.mem_map.2 ⟨p, hp, by rw [hbp]⟩
    · intro a ha
      obtain ⟨q, hq, rfl⟩ := List.mem_map.1 ha
      have hqm : scenario_at s q ∈ scenario_at s 50 :: sweep_rest s := by
        rw [hlist]
        exact List.mem_map.2 ⟨q, hq, rfl⟩
      have hb := pyMaxBy_le (fun sc : Scenario => sc.roi) (scenario_at s 50)
        (sweep_rest s) (scenario_at s q) hqm
      exact hb

/-- C9 counterexample: the sweep iteration at level 50 of a balanced maize
calculator (shared input_level 0.75) does not operate on an independent
snapshot: it overwrites the shared input_level field of the calculator with
0.5 before running the plan, so the state the plan is computed from differs
from the calculator state the sweep started with. The third conjunct records
that the scenario of that iteration is in fact computed from the overwritten
shared value 50 / 100. -/
theorem claim_C9_counterexample :
    (sweep_overwritten_calc
        { crop_type := "maize", land_size := 1, input_level := 0.75 } 50).input_level
      = 1 / 2
    ∧ ((1 : ℚ) / 2)
        ≠ ({ crop_type := "maize", land_size := 1, input_level := 0.75 } :
            OptCalc).input_level
    ∧ (sensitivity_step
        { crop_type := "maize", land_size := 1, input_level := 0.75 } 50).2
      = scenario_of 50 (calculate_optimized_plan "maize" 1 (50 / 100)) := by
  refine ⟨?_, ?_, rfl⟩
  · norm_num [sweep_overwritten_calc]
  · norm_num

/-- C9 amended: the sweep follows the save-mutate-restore pattern of the
source rather than independent snapshots: each iteration temporarily
overwrites the shared input_level with the swept percentage and computes the
plan from that mutated state, but restores the saved original before
returning, so each iteration (and therefore the whole sweep) leaves the
calculator state unchanged, every scenario is the plan of the original state
at its own level, and the recorded scenario list is exactly the sweep levels
mapped through the pipeline. -/
theorem claim_C9_amended (s : OptCalc) (input_pct : ℚ) :
    (sensitivity_step s input_pct).1 = s
    ∧ (sensitivity_step s input_pct).2
        = scenario_of input_pct
            (calculate_optimized_plan s.crop_type s.land_size (input_pct / 100))
    ∧ (sensitivity_sweep s).1 = s
    ∧ (sensitivity_analysis s).1 = s
    ∧ (sensitivity_analysis s).2.scenarios = sweep_levels.map (scenario_at s) := by
  refine ⟨rfl, rfl, ?_, ?_, ?_⟩
  · rw [sensitivity_sweep_eq]
  · simp only [sensitivity_analysis]
    rw [sensitivity_sweep_eq]
    simp [sweep_levels]
  · simp only [sensitivity_analysis]
    rw [sensitivity_sweep_eq]
    simp [sweep_levels]

set_option maxHeartbeats 4000000 in
/-- C10: in the balanced calculator, for every supported crop and
non-negative land size, the total cost is non-decreasing in the input
intensity over the range 0 to 1, and item by item: land preparation,
pesticides, labor and equipment do not depend on the intensity; seed and
fertilizer costs are non-decreasing (they scale affinely with the
intensity); the irrigation item equals pump cost * 0.3 * land exactly when
the intensity exceeds 0.7 and 0 otherwise, hence is non-decreasing; and the
yield-linked transportation and storage items grow with the
intensity-increasing yield. -/
theorem claim_C10 :
    ∀ crop_type ∈ (["maize", "rice", "cassava", "groundnut", "beans"] : List String),
    ∀ land_size i j : ℚ,
    0 ≤ land_size → 0 ≤ i → i ≤ j → j ≤ 1 →
    ((calculate_optimized_plan crop_type land_size i).cost_breakdown.land_preparation
        = (calculate_optimized_plan crop_type land_size j).cost_breakdown.land_preparation)
    ∧ ((calculate_optimized_plan crop_type land_size i).cost_breakdown.pesticides
        = (calculate_optimized_plan crop_type land_size j).cost_breakdown.pesticides)
    ∧ ((calculate_optimized_plan crop_type land_size i).cost_breakdown.labor
        = (calculate_optimized_plan crop_type land_size j).cost_breakdown.labor)
    ∧ ((calculate_optimized_plan crop_type land_size i).cost_breakdown.equipment
        = (calculate_optimized_plan crop_type land_size j).cost_breakdown.equipment)
    ∧ ((calculate_optimized_plan crop_type land_size i).cost_breakdown.seeds
        ≤ (calculate_optimized_plan crop_type land_size j).cost_breakdown.seeds)
    ∧ ((calculate_optimized_plan crop_type land_size i).cost_breakdown.fertilizers
        ≤ (calculate_optimized_plan crop_type land_size j).cost_breakdown.fertilizers)
    ∧ ((calculate_optimized_plan crop_type land_size i).cost_breakdown.irrigation
        = (if 0.7 < i then IRRIGATION_COSTS.pump_operation_per_ha * 0.3 else 0)
            * land_size)
    ∧ ((calculate_optimized_plan crop_type land_size i).cost_breakdown.irrigation
        ≤ (calculate_optimized_plan crop_type land_size j).cost_breakdown.irrigation)
    ∧ ((calculate_optimized_plan crop_type land_size i).cost_breakdown.transportation
        ≤ (calculate_optimized_plan crop_type land_size j).cost_breakdown.transportation)
    ∧ ((calculate_optimized_plan crop_type land_size i).cost_breakdown.storage
        ≤ (calculate_optimized_plan crop_type land_size j).cost_breakdown.storage)
    ∧ ((calculate_optimized_plan crop_type land_size i).cost_breakdown.total_cost
        ≤ (calculate_optimized_plan crop_type land_size j).cost_breakdown.total_cost) := by
  intro crop_type hcrop land_size i j hl h0 hij hj1
  have hil : i * land_size ≤ j * land_size := mul_le_mul_of_nonneg_right hij hl
  fin_cases hcrop <;>
  · simp only [calculate_optimized_plan, SC_maize_improved, SC_rice_improved,
      SC_cassava_improved, SC_groundnut_improved, SC_beans_improved, SC_cassava,
      SC_groundnut, SC_beans, SC_cassava_local, SR_maize_improved, SR_rice_improved,
      SR_cassava, SR_groundnut, SR_beans, FR_maize, FR_rice, FR_cassava, FR_groundnut,
      FR_beans, OY_maize, OY_rice, OY_cassava, OY_groundnut, OY_beans, PH_maize,
      PH_rice, PH_cassava, PH_groundnut, PH_beans, FP_maize, FP_rice, FP_cassava,
      FP_groundnut, FP_beans, LAND_PREP_COSTS.tillage_per_ha,
      LAND_PREP_COSTS.harrowing_per_ha, FERTILIZER_COSTS.npk_compound,
      FERTILIZER_COSTS.urea, FERTILIZER_COSTS.dap, FERTILIZER_COSTS.organic_manure_ton,
      PESTICIDE_COSTS.herbicide_per_ha, PESTICIDE_COSTS.insecticide_per_ha,
      LABOR_COSTS.daily_wage, LABOR_COSTS.planting_days_per_ha,
      LABOR_COSTS.weeding_days_per_ha, LABOR_COSTS.harvesting_days_per_ha,
      LABOR_COSTS.other_operations_days_per_ha, EQUIPMENT_COSTS.tractor_ploughing_per_ha,
      EQUIPMENT_COSTS.tractor_harrowing_per_ha, EQUIPMENT_COSTS.fuel_operations_per_ha,
      IRRIGATION_COSTS.pump_operation_per_ha, TRANSPORT_COSTS.farm_to_market_per_ton,
      STORAGE_COSTS.improved_storage_per_ton, Option.isSome_some, Option.isSome_none,
      Option.getD_some, Option.getD_none, Bool.false_eq_true, if_true, if_false]
    and_intros <;>
    first
      | trivial
      | ((try ring_nf); nlinarith [hil, hl])
      | (split_ifs <;> ((try ring_nf); nlinarith [hil, hl, hij]))

/-- C10 witness: the monotonicity theorem applied to maize on one hectare at
intensities one half and three quarters, each hypothesis discharged at the
concrete values. -/
theorem claim_C10_witness :
    (("maize" : String) ∈ (["maize", "rice", "cassava", "groundnut", "beans"] : List String)
      ∧ (0 : ℚ) ≤ 1 ∧ (0 : ℚ) ≤ 1 / 2 ∧ (1 / 2 : ℚ) ≤ 3 / 4 ∧ (3 / 4 : ℚ) ≤ 1)
    ∧ (((calculate_optimized_plan "maize" 1 (1 / 2)).cost_breakdown.land_preparation
        = (calculate_optimized_plan "maize" 1 (3 / 4)).cost_breakdown.land_preparation)
      ∧ ((calculate_optimized_plan "maize" 1 (1 / 2)).cost_breakdown.pesticides
        = (calculate_optimized_plan "maize" 1 (3 / 4)).cost_breakdown.pesticides)
      ∧ ((calculate_optimized_plan "maize" 1 (1 / 2)).cost_breakdown.labor
        = (calculate_optimized_plan "maize" 1 (3 / 4)).cost_breakdown.labor)
      ∧ ((calculate_optimized_plan "maize" 1 (1 / 2)).cost_breakdown.equipment
        = (calculate_optimized_plan "maize" 1 (3 / 4)).cost_breakdown.equipment)
      ∧ ((calculate_optimized_plan "maize" 1 (1 / 2)).cost_breakdown.seeds
        ≤ (calculate_optimized_plan "maize" 1 (3 / 4)).cost_breakdown.seeds)
      ∧ ((calculate_optimized_plan "maize" 1 (1 / 2)).cost_breakdown.fertilizers
        ≤ (calculate_optimized_plan "maize" 1 (3 / 4)).cost_breakdown.fertilizers)
      ∧ ((calculate_optimized_plan "maize" 1 (1 / 2)).cost_breakdown.irrigation
        = (if 0.7 < (1 / 2 : ℚ) then IRRIGATION_COSTS.pump_operation_per_ha * 0.3 else 0)
            * 1)
      ∧ ((calculate_optimized_plan "maize" 1 (1 / 2)).cost_breakdown.irrigation
        ≤ (calculate_optimized_plan "maize" 1 (3 / 4)).cost_breakdown.irrigation)
      ∧ ((calculate_optimized_plan "maize" 1 (1 / 2)).cost_breakdown.transportation
        ≤ (calculate_optimized_plan "maize" 1 (3 / 4)).cost_breakdown.transportation)
      ∧ ((calculate_optimized_plan "maize" 1 (1 / 2)).cost_breakdown.storage
        ≤ (calculate_optimized_plan "maize" 1 (3 / 4)).cost_breakdown.storage)
      ∧ ((calculate_optimized_plan "maize" 1 (1 / 2)).cost_breakdown.total_cost
        ≤ (calculate_optimized_plan "maize" 1 (3 / 4)).cost_breakdown.total_cost)) :=
  ⟨⟨by decide, by norm_num, by norm_num, by norm_num, by norm_num⟩,
   claim_C10 "maize" (by decide) 1 (1 / 2) (3 / 4) (by norm_num) (by norm_num)
     (by norm_num) (by norm_num)⟩
